import Mathlib

/-!
Verification of the io-parser repository's hard core: month-boundary flight
proration (`src/unnamed/part_004`, functions `prorateFlight` /
`applyFlightLogic`) and confidence scoring
(`src/backend/pipeline/apply_confidence.ts`).

Shallow-embedding conventions:
* JavaScript numbers are modelled as rationals (`ℚ`); `Math.round` is
  `jsRound` (round half toward positive infinity, exactly JS semantics).
* Date strings are kept as `String`s; `new Date` / `parseISO` on the
  `yyyy-MM-dd` strings this pipeline produces and consumes is modelled by the
  strict ISO parser `parseISODate` (any other string is a parse failure,
  matching an Invalid Date).  JS `Date` comparison compares timestamps, which
  for calendar dates is comparison of the absolute day number `Date.toAbs`.
* `null`/`undefined` fields become `Option`.
-/

/-- JS `Math.round`: round half toward +∞ (`Math.round (-2.5) = -2`). -/
def jsRound (q : ℚ) : ℤ := ⌊q + 1/2⌋

/-- JS `Math.round(x * 100) / 100` — round to 2 decimals. -/
def round2 (q : ℚ) : ℚ := (jsRound (q * 100) : ℚ) / 100

/-- JS `Math.round(x * 10000) / 10000` — round to 4 decimals. -/
def round4 (q : ℚ) : ℚ := (jsRound (q * 10000) : ℚ) / 10000

theorem jsRound_intCast (k : ℤ) : jsRound (k : ℚ) = k := by
  unfold jsRound
  rw [add_comm, Int.floor_add_int]
  norm_num

theorem jsRound_sub_intCast (q : ℚ) (k : ℤ) : jsRound (q - k) = jsRound q - k := by
  unfold jsRound
  rw [show q - (k : ℚ) + 1/2 = q + 1/2 + (-k : ℤ) by push_cast; ring]
  rw [Int.floor_add_int]
  omega

/-- `round2` is the identity on exact multiples of a cent. -/
theorem round2_cent (k : ℤ) : round2 ((k : ℚ) / 100) = (k : ℚ) / 100 := by
  unfold round2
  rw [show ((k : ℚ) / 100 * 100) = (k : ℚ) by ring, jsRound_intCast]

/-- Subtracting an exact cent amount commutes with `round2`. -/
theorem round2_sub_cent (q : ℚ) (k : ℤ) :
    round2 (q - (k : ℚ) / 100) = round2 q - (k : ℚ) / 100 := by
  unfold round2
  rw [show ((q - (k : ℚ) / 100) * 100) = q * 100 - (k : ℚ) by ring]
  rw [jsRound_sub_intCast]
  push_cast
  ring

/-- `round2` always produces an exact multiple of a cent. -/
theorem round2_is_cent (q : ℚ) : ∃ k : ℤ, round2 q = (k : ℚ) / 100 :=
  ⟨jsRound (q * 100), rfl⟩

/-! ## Calendar dates

The source parses `yyyy-MM-dd` strings with `parseISO` (date-fns) or
`new Date`, and manipulates them with `endOfMonth`, `addDays`,
`differenceInDays` and timestamp comparison.  We model a calendar date by its
year/month/day triple and derive the absolute day number. -/

structure Date where
  y : Nat
  m : Nat
  d : Nat
deriving DecidableEq, Repr

/-- Gregorian leap-year rule (as implemented by the JS `Date` rollover the
source's `getDaysInMonth` relies on). -/
def isLeap (y : Nat) : Bool := (y % 4 == 0 && y % 100 != 0) || y % 400 == 0

/-- Days in month `m` (1–12) of year `y`.  The default branch is never
reached for the valid months all theorems hypothesise. -/
def daysInMonth (y m : Nat) : Nat :=
  match m with
  | 1 => 31
  | 2 => if isLeap y then 29 else 28
  | 3 => 31
  | 4 => 30
  | 5 => 31
  | 6 => 30
  | 7 => 31
  | 8 => 31
  | 9 => 30
  | 10 => 31
  | 11 => 30
  | 12 => 31
  | _ => 30

def yearLength (y : Nat) : Nat := if isLeap y then 366 else 365

/-- Days in all years before year `y` (year 0 included), in closed form so
that concrete dates evaluate fast; `daysBeforeYear_succ` recovers the
year-by-year recurrence. -/
def daysBeforeYear (y : Nat) : Nat :=
  365 * y + (y + 3) / 4 + (y + 399) / 400 - (y + 99) / 100

theorem isLeap_iff (y : Nat) :
    isLeap y = true ↔ (y % 4 = 0 ∧ y % 100 ≠ 0) ∨ y % 400 = 0 := by
  unfold isLeap
  simp [Bool.and_eq_true, Bool.or_eq_true]

set_option maxHeartbeats 2000000 in
theorem daysBeforeYear_succ (y : Nat) :
    daysBeforeYear (y + 1) = daysBeforeYear y + yearLength y := by
  unfold daysBeforeYear yearLength
  by_cases hL : isLeap y = true
  · rw [if_pos hL]
    have := (isLeap_iff y).mp hL
    omega
  · rw [if_neg hL]
    have : ¬((y % 4 = 0 ∧ y % 100 ≠ 0) ∨ y % 400 = 0) :=
      fun hc => hL ((isLeap_iff y).mpr hc)
    omega

/-- Days in year `y` strictly before month `m`. -/
def daysBeforeMonth (y : Nat) : Nat → Nat
  | 0 => 0
  | 1 => 0
  | m + 2 => daysBeforeMonth y (m + 1) + daysInMonth y (m + 1)

/-- Absolute day number of a date; JS timestamp order on calendar dates is
exactly the order of `toAbs`. -/
def Date.toAbs (x : Date) : Nat :=
  daysBeforeYear x.y + daysBeforeMonth x.y x.m + x.d

/-- A structurally valid calendar date. -/
def Date.ValidDate (x : Date) : Prop :=
  1 ≤ x.m ∧ x.m ≤ 12 ∧ 1 ≤ x.d ∧ x.d ≤ daysInMonth x.y x.m

instance (x : Date) : Decidable x.ValidDate := by
  unfold Date.ValidDate; infer_instance

/-- date-fns `endOfMonth` (at date granularity). -/
def endOfMonth (x : Date) : Date := ⟨x.y, x.m, daysInMonth x.y x.m⟩

/-- date-fns `addDays x 1` for calendar dates. -/
def nextDay (x : Date) : Date :=
  if x.d < daysInMonth x.y x.m then ⟨x.y, x.m, x.d + 1⟩
  else if x.m < 12 then ⟨x.y, x.m + 1, 1⟩
  else ⟨x.y + 1, 1, 1⟩

theorem daysInMonth_pos {y m : Nat} (h1 : 1 ≤ m) (h2 : m ≤ 12) :
    0 < daysInMonth y m := by
  interval_cases m <;> simp [daysInMonth] <;> split <;> omega

theorem daysBeforeMonth_succ (y m : Nat) (h : 1 ≤ m) :
    daysBeforeMonth y (m + 1) = daysBeforeMonth y m + daysInMonth y m := by
  match m, h with
  | m + 1, _ => rfl

theorem daysBeforeMonth_13 (y : Nat) : daysBeforeMonth y 13 = yearLength y := by
  by_cases h : isLeap y <;>
    simp [daysBeforeMonth, daysInMonth, yearLength, h]

theorem daysBeforeMonth_le_succ (y m : Nat) :
    daysBeforeMonth y m ≤ daysBeforeMonth y (m + 1) := by
  match m with
  | 0 => simp [daysBeforeMonth]
  | m + 1 => exact Nat.le_add_right _ _

theorem daysBeforeMonth_mono (y : Nat) {m1 m2 : Nat} (h : m1 ≤ m2) :
    daysBeforeMonth y m1 ≤ daysBeforeMonth y m2 := by
  induction h with
  | refl => exact le_refl _
  | step _ ih => exact le_trans ih (daysBeforeMonth_le_succ y _)

theorem daysBeforeYear_mono {y1 y2 : Nat} (h : y1 ≤ y2) :
    daysBeforeYear y1 ≤ daysBeforeYear y2 := by
  induction h with
  | refl => exact le_refl _
  | step _ ih =>
    refine le_trans ih ?_
    rw [daysBeforeYear_succ]
    omega

/-- For a valid date, `toAbs` stays below the start of the next year. -/
theorem toAbs_lt_next_year {x : Date} (h : x.ValidDate) :
    x.toAbs ≤ daysBeforeYear (x.y + 1) := by
  obtain ⟨h1, h2, h3, h4⟩ := h
  have hm : daysBeforeMonth x.y x.m + daysInMonth x.y x.m ≤ daysBeforeMonth x.y 13 := by
    rw [← daysBeforeMonth_succ x.y x.m h1]
    exact daysBeforeMonth_mono x.y (by omega)
  have h13 := daysBeforeMonth_13 x.y
  have hsucc := daysBeforeYear_succ x.y
  unfold Date.toAbs
  omega

/-- A valid date of a strictly earlier year has a strictly smaller `toAbs`. -/
theorem toAbs_lt_of_year_lt {a b : Date} (ha : a.ValidDate) (hy : a.y < b.y)
    (hd : 1 ≤ b.d) : a.toAbs < b.toAbs := by
  have h1 := toAbs_lt_next_year ha
  have h2 : daysBeforeYear (a.y + 1) ≤ daysBeforeYear b.y := daysBeforeYear_mono (by omega)
  unfold Date.toAbs
  have : 0 < b.d := hd
  unfold Date.toAbs at h1
  omega

/-- Comparable valid dates have comparable years. -/
theorem year_le_of_toAbs_le {a b : Date} (ha : a.ValidDate) (hb : b.ValidDate)
    (h : a.toAbs ≤ b.toAbs) : a.y ≤ b.y := by
  by_contra hc
  have := toAbs_lt_of_year_lt hb (by omega) ha.2.2.1
  omega

theorem validDate_mk {y m d : Nat} (h1 : 1 ≤ m) (h2 : m ≤ 12) (h3 : 1 ≤ d)
    (h4 : d ≤ daysInMonth y m) : (Date.mk y m d).ValidDate := ⟨h1, h2, h3, h4⟩

theorem nextDay_valid {x : Date} (h : x.ValidDate) : (nextDay x).ValidDate := by
  obtain ⟨h1, h2, h3, h4⟩ := h
  unfold nextDay
  by_cases hd : x.d < daysInMonth x.y x.m
  · rw [if_pos hd]
    exact validDate_mk h1 h2 (by omega) (by omega)
  · rw [if_neg hd]
    by_cases hm : x.m < 12
    · rw [if_pos hm]
      have := @daysInMonth_pos x.y (x.m + 1) (by omega) (by omega)
      exact validDate_mk (by omega) (by omega) (by omega) (by omega)
    · rw [if_neg hm]
      have : 0 < daysInMonth (x.y + 1) 1 := daysInMonth_pos (by omega) (by omega)
      exact validDate_mk (by omega) (by omega) (by omega) (by omega)

theorem toAbs_mk (y m d : Nat) :
    (Date.mk y m d).toAbs = daysBeforeYear y + daysBeforeMonth y m + d := rfl

theorem toAbs_nextDay {x : Date} (h : x.ValidDate) :
    (nextDay x).toAbs = x.toAbs + 1 := by
  obtain ⟨h1, h2, h3, h4⟩ := h
  unfold nextDay
  by_cases hd : x.d < daysInMonth x.y x.m
  · rw [if_pos hd]
    rw [toAbs_mk]
    show _ = daysBeforeYear x.y + daysBeforeMonth x.y x.m + x.d + 1
    omega
  · rw [if_neg hd]
    have hdim : x.d = daysInMonth x.y x.m := by omega
    by_cases hm : x.m < 12
    · rw [if_pos hm]
      rw [toAbs_mk, daysBeforeMonth_succ x.y x.m h1]
      show _ = daysBeforeYear x.y + daysBeforeMonth x.y x.m + x.d + 1
      omega
    · rw [if_neg hm]
      have hx12 : x.m = 12 := by omega
      have h13 : daysBeforeMonth x.y 13 = yearLength x.y := daysBeforeMonth_13 x.y
      rw [daysBeforeMonth_succ x.y 12 (by omega)] at h13
      rw [toAbs_mk, daysBeforeYear_succ]
      show daysBeforeYear x.y + yearLength x.y + daysBeforeMonth (x.y + 1) 1 + 1 =
        daysBeforeYear x.y + daysBeforeMonth x.y x.m + x.d + 1
      have hb1 : daysBeforeMonth (x.y + 1) 1 = 0 := rfl
      rw [hx12] at hdim ⊢
      omega

theorem endOfMonth_valid {x : Date} (h : x.ValidDate) : (endOfMonth x).ValidDate := by
  obtain ⟨h1, h2, h3, h4⟩ := h
  exact ⟨h1, h2, daysInMonth_pos h1 h2, le_refl _⟩

theorem toAbs_le_endOfMonth {x : Date} (h : x.ValidDate) :
    x.toAbs ≤ (endOfMonth x).toAbs := by
  obtain ⟨h1, h2, h3, h4⟩ := h
  simp [Date.toAbs, endOfMonth]
  omega

/-! ## ISO date strings

The pipeline's dates are `yyyy-MM-dd` strings.  `parseISODate` embeds
`parseISO` / `new Date` on such strings (any other shape yields an Invalid
Date, modelled as `none`); `formatDate` embeds date-fns
`format(d, 'yyyy-MM-dd')` with its zero padding. -/

def digitChar (n : Nat) : Char := Char.ofNat (48 + n)

def digitVal (c : Char) : Nat := c.toNat - 48

/-- ASCII digit test (`Char.isDigit` unfolded to `Nat` comparisons). -/
def isDigitChar (c : Char) : Bool := 48 ≤ c.toNat && c.toNat ≤ 57

/-- `format(d, 'yyyy-MM-dd')`: zero-padded 4-digit year, 2-digit month and
day, dash separated. -/
def formatDate (x : Date) : String :=
  ⟨[digitChar (x.y / 1000 % 10), digitChar (x.y / 100 % 10),
    digitChar (x.y / 10 % 10), digitChar (x.y % 10), '-',
    digitChar (x.m / 10 % 10), digitChar (x.m % 10), '-',
    digitChar (x.d / 10 % 10), digitChar (x.d % 10)]⟩

/-- Range check performed by the JS date machinery on ISO strings: an
out-of-range component gives an Invalid Date. -/
def mkValidDate (y m d : Nat) : Option Date :=
  if 1 ≤ m ∧ m ≤ 12 ∧ 1 ≤ d ∧ d ≤ daysInMonth y m then some ⟨y, m, d⟩ else none

def parseISODate (s : String) : Option Date :=
  match s.toList with
  | [y1, y2, y3, y4, c1, m1, m2, c2, d1, d2] =>
    if isDigitChar y1 && isDigitChar y2 && isDigitChar y3 && isDigitChar y4 &&
       isDigitChar m1 && isDigitChar m2 && isDigitChar d1 && isDigitChar d2 &&
       c1 == '-' && c2 == '-' then
      mkValidDate (((digitVal y1 * 10 + digitVal y2) * 10 + digitVal y3) * 10 + digitVal y4)
        (digitVal m1 * 10 + digitVal m2) (digitVal d1 * 10 + digitVal d2)
    else none
  | _ => none

theorem mkValidDate_some {y m d : Nat} {x : Date} (h : mkValidDate y m d = some x) :
    x = ⟨y, m, d⟩ ∧ x.ValidDate := by
  unfold mkValidDate at h
  split at h
  · cases h
    rename_i hc
    exact ⟨rfl, hc⟩
  · exact absurd h (by simp)

theorem parseISODate_valid {s : String} {x : Date} (h : parseISODate s = some x) :
    x.ValidDate := by
  unfold parseISODate at h
  split at h
  · split at h
    · exact (mkValidDate_some h).2
    · exact absurd h (by simp)
  · exact absurd h (by simp)

theorem parseISODate_year_le {s : String} {x : Date} (h : parseISODate s = some x) :
    x.y ≤ 9999 := by
  unfold parseISODate at h
  split at h
  · split at h
    · have hx := (mkValidDate_some h).1
      have hd : ∀ c : Char, isDigitChar c = true → digitVal c ≤ 9 := by
        intro c hc
        simp [isDigitChar] at hc
        unfold digitVal
        omega
      rename_i hcond
      simp only [Bool.and_eq_true] at hcond
      have := hd _ hcond.1.1.1.1.1.1.1.1.1
      have := hd _ hcond.1.1.1.1.1.1.1.1.2
      have := hd _ hcond.1.1.1.1.1.1.1.2
      have := hd _ hcond.1.1.1.1.1.1.2
      rw [hx]
      show ((digitVal _ * 10 + digitVal _) * 10 + digitVal _) * 10 + digitVal _ ≤ 9999
      omega
    · exact absurd h (by simp)
  · exact absurd h (by simp)

theorem digitChar_isDigit {k : Nat} (h : k < 10) : isDigitChar (digitChar k) = true := by
  interval_cases k <;> decide

theorem digitVal_digitChar {k : Nat} (h : k < 10) : digitVal (digitChar k) = k := by
  interval_cases k <;> decide

theorem formatDate_toList (x : Date) :
    (formatDate x).toList =
      [digitChar (x.y / 1000 % 10), digitChar (x.y / 100 % 10),
       digitChar (x.y / 10 % 10), digitChar (x.y % 10), '-',
       digitChar (x.m / 10 % 10), digitChar (x.m % 10), '-',
       digitChar (x.d / 10 % 10), digitChar (x.d % 10)] := rfl

theorem daysInMonth_le_31 (y m : Nat) : daysInMonth y m ≤ 31 := by
  unfold daysInMonth
  split <;> (try split) <;> omega

/-- Formatting a valid 4-digit-year date and re-parsing it round-trips. -/
theorem parseISODate_formatDate {x : Date} (h : x.ValidDate) (hy : x.y ≤ 9999) :
    parseISODate (formatDate x) = some x := by
  obtain ⟨h1, h2, h3, h4⟩ := h
  have hd31 : x.d ≤ 31 := le_trans h4 (daysInMonth_le_31 _ _)
  have hb : ∀ k : Nat, isDigitChar (digitChar (k % 10)) = true :=
    fun k => digitChar_isDigit (Nat.mod_lt _ (by omega))
  have hv : ∀ k : Nat, digitVal (digitChar (k % 10)) = k % 10 :=
    fun k => digitVal_digitChar (Nat.mod_lt _ (by omega))
  unfold parseISODate
  rw [formatDate_toList]
  simp only [hb, hv, Bool.true_and, Bool.and_true]
  rw [if_pos (by decide)]
  have hy' : ((x.y / 1000 % 10 * 10 + x.y / 100 % 10) * 10 + x.y / 10 % 10) * 10
      + x.y % 10 = x.y := by omega
  have hm' : x.m / 10 % 10 * 10 + x.m % 10 = x.m := by omega
  have hd' : x.d / 10 % 10 * 10 + x.d % 10 = x.d := by omega
  rw [hy', hm', hd']
  unfold mkValidDate
  rw [if_pos ⟨h1, h2, h3, h4⟩]

/-! ## FlightSegmenter (`src/unnamed/part_004`)

`FlightSegment` is the TS interface of the same name; number fields become
`Option ℚ` (`null` ⇒ `none`), the TS-optional `segment_days` /
`proration_factor` become `Option` too. -/

structure SegProvenance where
  quote : String
  location_hint : String
  find_confidence_interval : ℚ × ℚ
  value_confidence_interval : ℚ × ℚ
  rationale : String
deriving DecidableEq, Repr

structure FlightSegment where
  index : Option ℤ
  placement_id : Option String
  name : Option String
  start : Option String
  «end» : Option String
  units : Option ℚ
  unit_type : Option String
  rate_cpm : Option ℚ
  cost_method : Option String
  cost : Option ℚ
  currency : Option String
  segment_days : Option ℤ
  proration_factor : Option ℚ
  provenance : SegProvenance
deriving DecidableEq, Repr

/-- `segmentEnd`: month end of the current date, clamped by the flight end —
the expression `currentDate > monthEnd ? endDate : (endDate < monthEnd ?
endDate : monthEnd)` (JS `Date` comparison = `toAbs` comparison). -/
def segEndOf (endDate currentDate : Date) : Date :=
  if (endOfMonth currentDate).toAbs < currentDate.toAbs then endDate
  else if endDate.toAbs < (endOfMonth currentDate).toAbs then endDate
  else endOfMonth currentDate

/-- `segmentDays = differenceInDays(segmentEnd, currentDate) + 1`. -/
def segDaysOf (endDate currentDate : Date) : ℤ :=
  ((segEndOf endDate currentDate).toAbs : ℤ) - (currentDate.toAbs : ℤ) + 1

/-- `prorationFactor = segmentDays / totalDays`. -/
def factorOf (endDate currentDate : Date) (totalDays : ℤ) : ℚ :=
  (segDaysOf endDate currentDate : ℚ) / (totalDays : ℚ)

/-- The last-segment test `currentDate >= endDate || addDays(segmentEnd, 1) >
endDate` (duplicated verbatim in the source for cost and units). -/
def isLastSeg (endDate currentDate : Date) : Bool :=
  decide (endDate.toAbs ≤ currentDate.toAbs) ||
  decide (endDate.toAbs < (nextDay (segEndOf endDate currentDate)).toAbs)

/-- Prorated cost of one segment plus the updated `remainingCost`. -/
def prorateCostStep (cost : Option ℚ) (isLast : Bool) (factor remC : ℚ) :
    Option ℚ × ℚ :=
  match cost with
  | none => (none, remC)
  | some c =>
    if isLast then (some (round2 remC), remC)
    else (some (round2 (c * factor)), remC - round2 (c * factor))

/-- Prorated units of one segment plus the updated `remainingUnits`. -/
def prorateUnitsStep (units : Option ℚ) (isLast : Bool) (factor remU : ℚ) :
    Option ℚ × ℚ :=
  match units with
  | none => (none, remU)
  | some u =>
    if isLast then (some remU, remU)
    else (some ((jsRound (u * factor) : ℤ) : ℚ),
          remU - ((jsRound (u * factor) : ℤ) : ℚ))

/-- The `while (currentDate <= endDate)` loop of `prorateFlight`, with an
explicit fuel argument.  The loop advances `currentDate` past `segmentEnd`
each iteration, so `endDate.toAbs + 1` units of fuel always suffice (proved
where used); running out of fuel can only happen on non-calendar dates, where
the JS `NaN` comparisons stop the loop immediately as well. -/
def prorateLoop (flight : FlightSegment) (endDate : Date) (totalDays : ℤ) :
    Nat → Date → ℚ → ℚ → List FlightSegment
  | 0, _, _, _ => []
  | fuel + 1, currentDate, remainingCost, remainingUnits =>
    if currentDate.toAbs ≤ endDate.toAbs then
      { flight with
          start := some (formatDate currentDate),
          «end» := some (formatDate (segEndOf endDate currentDate)),
          cost := (prorateCostStep flight.cost (isLastSeg endDate currentDate)
            (factorOf endDate currentDate totalDays) remainingCost).1,
          units := (prorateUnitsStep flight.units (isLastSeg endDate currentDate)
            (factorOf endDate currentDate totalDays) remainingUnits).1,
          segment_days := some (segDaysOf endDate currentDate),
          proration_factor := some (round4 (factorOf endDate currentDate totalDays)) } ::
        prorateLoop flight endDate totalDays fuel (nextDay (segEndOf endDate currentDate))
          (prorateCostStep flight.cost (isLastSeg endDate currentDate)
            (factorOf endDate currentDate totalDays) remainingCost).2
          (prorateUnitsStep flight.units (isLastSeg endDate currentDate)
            (factorOf endDate currentDate totalDays) remainingUnits).2
    else []

/-- `prorateFlight` of `src/unnamed/part_004`.  A missing (or empty, hence
JS-falsy) date string passes the flight through; an unparseable date string
makes every JS `NaN` comparison false, so both the same-month test and the
loop guard fail and the function returns `[]`. -/
def prorateFlight (flight : FlightSegment) : List FlightSegment :=
  match flight.start, flight.«end» with
  | some ss, some es =>
    if ss = "" ∨ es = "" then [flight]
    else
      match parseISODate ss, parseISODate es with
      | some startDate, some endDate =>
        let totalDays : ℤ := (endDate.toAbs : ℤ) - (startDate.toAbs : ℤ) + 1
        if startDate.m = endDate.m ∧ startDate.y = endDate.y then
          [{ flight with segment_days := some totalDays, proration_factor := some 1 }]
        else
          prorateLoop flight endDate totalDays (endDate.toAbs + 1) startDate
            (flight.cost.getD 0) (flight.units.getD 0)
      | _, _ => []
  | _, _ => [flight]

/-! ## DocumentNormalizer (`applyFlightLogic` in `src/unnamed/part_004`) -/

structure Explanation where
  summary : String
  assumptions : List String
  omissions : List String
deriving DecidableEq, Repr

structure CampaignWindow where
  start : Option String
  «end» : Option String
deriving DecidableEq, Repr

structure DocProvenance where
  field : String
  quote : String
  location_hint : String
  find_confidence_interval : ℚ × ℚ
  value_confidence_interval : ℚ × ℚ
  rationale : String
deriving DecidableEq, Repr

/-- The TS interface `ProcessedIO` (renamed: `IO` is a reserved suffix here). -/
structure ProcessedIOData where
  advertiser_name : Option String
  agency_name : Option String
  campaign_total_flight : Option CampaignWindow
  total_contracted_impressions : Option ℚ
  total_campaign_spend : Option ℚ
  currency : Option String
  po_number : Option String
  account_executive_name : Option String
  frequency_cap : ℚ
  period : Option CampaignWindow
  flights : List FlightSegment
  explanation : Explanation
  provenance : List DocProvenance
deriving DecidableEq, Repr

structure ProcessingSummary where
  original_flights : Nat
  prorated_segments : Nat
  month_crossing_flights : Nat
  total_cost_before : ℚ
  total_cost_after : ℚ
  total_units_before : ℚ
  total_units_after : ℚ
  processing_notes : List String
deriving DecidableEq, Repr

/-- JS template interpolation of a nullable string (`null` prints as
`"null"`). -/
def optStr (x : Option String) : String := x.getD "null"

/-- The processing note pushed for a split flight. -/
def splitNote (flight : FlightSegment) (segCount : Nat) : String :=
  "Flight " ++ (match flight.placement_id with
    | some p => if p = "" then "unnamed" else p
    | none => "unnamed") ++
  " (" ++ optStr flight.start ++ " to " ++ optStr flight.«end» ++ ") split into " ++
  toString segCount ++ " segments due to month boundary"

/-- `applyFlightLogic`: segment every flight, collect notes, and write the
(`|| 0`-coerced) original totals back onto the result. -/
def applyFlightLogic (jsonData : ProcessedIOData) :
    ProcessedIOData × ProcessingSummary :=
  let originalTotalCost : ℚ := jsonData.total_campaign_spend.getD 0
  let originalTotalUnits : ℚ := jsonData.total_contracted_impressions.getD 0
  let step := jsonData.flights.foldl
    (fun (acc : List FlightSegment × Nat × List String) flight =>
      let segments := prorateFlight flight
      if 1 < segments.length then
        (acc.1 ++ segments, acc.2.1 + 1, acc.2.2 ++ [splitNote flight segments.length])
      else
        (acc.1 ++ segments, acc.2.1, acc.2.2))
    ([], 0, [])
  let allSegments := step.1
  let monthCrossingFlights := step.2.1
  let processingNotes := step.2.2
  let result : ProcessedIOData :=
    { jsonData with
        flights := allSegments,
        total_campaign_spend := some originalTotalCost,
        total_contracted_impressions := some originalTotalUnits,
        explanation :=
          if processingNotes = [] then jsonData.explanation
          else { jsonData.explanation with
                   assumptions := jsonData.explanation.assumptions ++ processingNotes } }
  let summary : ProcessingSummary :=
    { original_flights := jsonData.flights.length,
      prorated_segments := allSegments.length,
      month_crossing_flights := monthCrossingFlights,
      total_cost_before := originalTotalCost,
      total_cost_after := originalTotalCost,
      total_units_before := originalTotalUnits,
      total_units_after := originalTotalUnits,
      processing_notes := processingNotes }
  (result, summary)

/-! Facts about one iteration of the proration loop. -/

theorem segEndOf_cases {endDate currentDate : Date} (hv : currentDate.ValidDate) :
    segEndOf endDate currentDate = endOfMonth currentDate ∨
    (segEndOf endDate currentDate = endDate ∧
      endDate.toAbs < (endOfMonth currentDate).toAbs) := by
  unfold segEndOf
  rw [if_neg (by have := toAbs_le_endOfMonth hv; omega)]
  by_cases hb : endDate.toAbs < (endOfMonth currentDate).toAbs
  · rw [if_pos hb]; exact Or.inr ⟨rfl, hb⟩
  · rw [if_neg hb]; exact Or.inl rfl

theorem segEndOf_valid {endDate currentDate : Date} (hv : currentDate.ValidDate)
    (he : endDate.ValidDate) : (segEndOf endDate currentDate).ValidDate := by
  rcases @segEndOf_cases endDate _ hv with h | ⟨h, _⟩ <;> rw [h]
  · exact endOfMonth_valid hv
  · exact he

theorem toAbs_le_segEndOf {endDate currentDate : Date} (hv : currentDate.ValidDate)
    (hg : currentDate.toAbs ≤ endDate.toAbs) :
    currentDate.toAbs ≤ (segEndOf endDate currentDate).toAbs := by
  rcases @segEndOf_cases endDate _ hv with h | ⟨h, _⟩ <;> rw [h]
  · exact toAbs_le_endOfMonth hv
  · exact hg

theorem segEndOf_le_toAbs {endDate currentDate : Date} (hv : currentDate.ValidDate)
    (hg : currentDate.toAbs ≤ endDate.toAbs) :
    (segEndOf endDate currentDate).toAbs ≤ endDate.toAbs := by
  unfold segEndOf
  rw [if_neg (by have := toAbs_le_endOfMonth hv; omega)]
  by_cases hb : endDate.toAbs < (endOfMonth currentDate).toAbs
  · rw [if_pos hb]
  · rw [if_neg hb]; omega

theorem isLastSeg_iff {endDate currentDate : Date} (hv : currentDate.ValidDate)
    (he : endDate.ValidDate) (hg : currentDate.toAbs ≤ endDate.toAbs) :
    isLastSeg endDate currentDate = true ↔
      (segEndOf endDate currentDate).toAbs = endDate.toAbs := by
  have hnv := toAbs_nextDay (segEndOf_valid hv he)
  have hle := segEndOf_le_toAbs hv hg
  have hge := toAbs_le_segEndOf hv hg
  unfold isLastSeg
  simp only [Bool.or_eq_true, decide_eq_true_eq]
  constructor
  · rintro (h | h)
    · omega
    · omega
  · intro h
    right
    omega

theorem isLastSeg_false {endDate currentDate : Date} (hv : currentDate.ValidDate)
    (he : endDate.ValidDate) (hg : currentDate.toAbs ≤ endDate.toAbs)
    (h : isLastSeg endDate currentDate = false) :
    segEndOf endDate currentDate = endOfMonth currentDate ∧
      (segEndOf endDate currentDate).toAbs < endDate.toAbs := by
  have hiff := isLastSeg_iff hv he hg
  have hne : (segEndOf endDate currentDate).toAbs ≠ endDate.toAbs := by
    intro hc
    rw [hiff.mpr hc] at h
    exact Bool.noConfusion h
  have hlt : (segEndOf endDate currentDate).toAbs < endDate.toAbs := by
    have := segEndOf_le_toAbs hv hg
    omega
  rcases @segEndOf_cases endDate _ hv with hcase | ⟨hcase, _⟩
  · exact ⟨hcase, hlt⟩
  · rw [hcase] at hlt
    omega

theorem prorateLoop_stop (flight : FlightSegment) (endDate : Date) (totalDays : ℤ)
    (fuel : Nat) (currentDate : Date) (remC remU : ℚ)
    (h : endDate.toAbs < currentDate.toAbs) :
    prorateLoop flight endDate totalDays fuel currentDate remC remU = [] := by
  cases fuel with
  | zero => rfl
  | succ fuel =>
    unfold prorateLoop
    rw [if_neg (by omega)]

theorem prorateLoop_succ (flight : FlightSegment) (endDate : Date) (totalDays : ℤ)
    (fuel : Nat) (currentDate : Date) (remC remU : ℚ)
    (h : currentDate.toAbs ≤ endDate.toAbs) :
    prorateLoop flight endDate totalDays (fuel + 1) currentDate remC remU =
      { flight with
          start := some (formatDate currentDate),
          «end» := some (formatDate (segEndOf endDate currentDate)),
          cost := (prorateCostStep flight.cost (isLastSeg endDate currentDate)
            (factorOf endDate currentDate totalDays) remC).1,
          units := (prorateUnitsStep flight.units (isLastSeg endDate currentDate)
            (factorOf endDate currentDate totalDays) remU).1,
          segment_days := some (segDaysOf endDate currentDate),
          proration_factor := some (round4 (factorOf endDate currentDate totalDays)) } ::
        prorateLoop flight endDate totalDays fuel (nextDay (segEndOf endDate currentDate))
          (prorateCostStep flight.cost (isLastSeg endDate currentDate)
            (factorOf endDate currentDate totalDays) remC).2
          (prorateUnitsStep flight.units (isLastSeg endDate currentDate)
            (factorOf endDate currentDate totalDays) remU).2 := by
  conv_lhs => unfold prorateLoop
  rw [if_pos h]

/-- Conservation invariant for cost: while the guard holds, the loop's
segments sum (in `getD 0` reading) to `round2` of the remaining cost. -/
theorem prorateLoop_cost_sum (flight : FlightSegment) (endDate : Date)
    (totalDays : ℤ) (c : ℚ) (hc : flight.cost = some c) (he : endDate.ValidDate) :
    ∀ fuel (currentDate : Date) (remC remU : ℚ), currentDate.ValidDate →
      currentDate.toAbs ≤ endDate.toAbs →
      endDate.toAbs + 1 - currentDate.toAbs ≤ fuel →
      ((prorateLoop flight endDate totalDays fuel currentDate remC remU).map
        (fun sg => sg.cost.getD 0)).sum = round2 remC := by
  intro fuel
  induction fuel with
  | zero => intro currentDate remC remU _ hg hf; omega
  | succ fuel ih =>
    intro currentDate remC remU hv hg hf
    rw [prorateLoop_succ _ _ _ _ _ _ _ hg]
    have hsv := segEndOf_valid hv he
    have hnext := toAbs_nextDay hsv
    have hge := toAbs_le_segEndOf hv hg
    cases hlast : isLastSeg endDate currentDate with
    | true =>
      have hEnd := (isLastSeg_iff hv he hg).mp hlast
      have htail : prorateLoop flight endDate totalDays fuel
          (nextDay (segEndOf endDate currentDate))
          (prorateCostStep flight.cost true (factorOf endDate currentDate totalDays) remC).2
          (prorateUnitsStep flight.units true (factorOf endDate currentDate totalDays) remU).2
          = [] :=
        prorateLoop_stop _ _ _ _ _ _ _ (by omega)
      rw [htail]
      simp [prorateCostStep, hc]
    | false =>
      obtain ⟨hme, hlt⟩ := isLastSeg_false hv he hg hlast
      have hvnext : (nextDay (segEndOf endDate currentDate)).ValidDate := nextDay_valid hsv
      have htail := ih (nextDay (segEndOf endDate currentDate))
        (prorateCostStep flight.cost false (factorOf endDate currentDate totalDays) remC).2
        (prorateUnitsStep flight.units false (factorOf endDate currentDate totalDays) remU).2
        hvnext (by omega) (by omega)
      rw [List.map_cons, List.sum_cons, htail]
      simp only [prorateCostStep, hc]
      simp only [Bool.false_eq_true, if_false]
      obtain ⟨k, hk⟩ := round2_is_cent (c * factorOf endDate currentDate totalDays)
      rw [hk, round2_sub_cent]
      simp

/-- Conservation invariant for units: the loop's segments sum exactly to the
remaining units (the last segment takes the remainder unrounded). -/
theorem prorateLoop_units_sum (flight : FlightSegment) (endDate : Date)
    (totalDays : ℤ) (u : ℚ) (hu : flight.units = some u) (he : endDate.ValidDate) :
    ∀ fuel (currentDate : Date) (remC remU : ℚ), currentDate.ValidDate →
      currentDate.toAbs ≤ endDate.toAbs →
      endDate.toAbs + 1 - currentDate.toAbs ≤ fuel →
      ((prorateLoop flight endDate totalDays fuel currentDate remC remU).map
        (fun sg => sg.units.getD 0)).sum = remU := by
  intro fuel
  induction fuel with
  | zero => intro currentDate remC remU _ hg hf; omega
  | succ fuel ih =>
    intro currentDate remC remU hv hg hf
    rw [prorateLoop_succ _ _ _ _ _ _ _ hg]
    have hsv := segEndOf_valid hv he
    have hnext := toAbs_nextDay hsv
    have hge := toAbs_le_segEndOf hv hg
    cases hlast : isLastSeg endDate currentDate with
    | true =>
      have hEnd := (isLastSeg_iff hv he hg).mp hlast
      have htail : prorateLoop flight endDate totalDays fuel
          (nextDay (segEndOf endDate currentDate))
          (prorateCostStep flight.cost true (factorOf endDate currentDate totalDays) remC).2
          (prorateUnitsStep flight.units true (factorOf endDate currentDate totalDays) remU).2
          = [] :=
        prorateLoop_stop _ _ _ _ _ _ _ (by omega)
      rw [htail]
      simp [prorateUnitsStep, hu]
    | false =>
      obtain ⟨hme, hlt⟩ := isLastSeg_false hv he hg hlast
      have hvnext : (nextDay (segEndOf endDate currentDate)).ValidDate := nextDay_valid hsv
      have htail := ih (nextDay (segEndOf endDate currentDate))
        (prorateCostStep flight.cost false (factorOf endDate currentDate totalDays) remC).2
        (prorateUnitsStep flight.units false (factorOf endDate currentDate totalDays) remU).2
        hvnext (by omega) (by omega)
      rw [List.map_cons, List.sum_cons, htail]
      simp only [prorateUnitsStep, hu]
      simp only [Bool.false_eq_true, if_false]
      simp

/-! ## The partition specification (P1)

`PartitionFrom e a segs` says: `segs` is nonempty; the first segment's date
range starts exactly at `a`; every segment's range is a nonempty span of
days; each non-final segment ends on the last day of a calendar month and the
next segment starts on the following day (no gaps, no overlaps, chronological
order, cuts only at month boundaries); and the final segment ends exactly at
`e` (by absolute day number). -/
def PartitionFrom (e : Date) : Date → List FlightSegment → Prop
  | _, [] => False
  | a, seg :: rest =>
    ∃ sa sb b, seg.start = some sa ∧ parseISODate sa = some a ∧
      seg.«end» = some sb ∧ parseISODate sb = some b ∧
      a.toAbs ≤ b.toAbs ∧
      ((rest = [] ∧ b.toAbs = e.toAbs) ∨
       (b.d = daysInMonth b.y b.m ∧ b.toAbs < e.toAbs ∧ PartitionFrom e (nextDay b) rest))

theorem partitionFrom_cons {e a : Date} {seg : FlightSegment}
    {rest : List FlightSegment} (sa sb : String) (b : Date)
    (h1 : seg.start = some sa) (h2 : parseISODate sa = some a)
    (h3 : seg.«end» = some sb) (h4 : parseISODate sb = some b)
    (h5 : a.toAbs ≤ b.toAbs)
    (h6 : (rest = [] ∧ b.toAbs = e.toAbs) ∨
          (b.d = daysInMonth b.y b.m ∧ b.toAbs < e.toAbs ∧ PartitionFrom e (nextDay b) rest)) :
    PartitionFrom e a (seg :: rest) := ⟨sa, sb, b, h1, h2, h3, h4, h5, h6⟩

theorem prorateLoop_partition (flight : FlightSegment) (endDate : Date)
    (totalDays : ℤ) (he : endDate.ValidDate) (hy : endDate.y ≤ 9999) :
    ∀ fuel (currentDate : Date) (remC remU : ℚ), currentDate.ValidDate →
      currentDate.toAbs ≤ endDate.toAbs →
      endDate.toAbs + 1 - currentDate.toAbs ≤ fuel →
      PartitionFrom endDate currentDate
        (prorateLoop flight endDate totalDays fuel currentDate remC remU) := by
  intro fuel
  induction fuel with
  | zero => intro currentDate remC remU _ hg hf; omega
  | succ fuel ih =>
    intro currentDate remC remU hv hg hf
    rw [prorateLoop_succ _ _ _ _ _ _ _ hg]
    have hsv := segEndOf_valid hv he
    have hnext := toAbs_nextDay hsv
    have hge := toAbs_le_segEndOf hv hg
    have hcy : currentDate.y ≤ 9999 :=
      le_trans (year_le_of_toAbs_le hv he hg) hy
    have hsy : (segEndOf endDate currentDate).y ≤ 9999 := by
      rcases @segEndOf_cases endDate _ hv with hcase | ⟨hcase, _⟩ <;> rw [hcase]
      · exact hcy
      · exact hy
    refine partitionFrom_cons (formatDate currentDate)
      (formatDate (segEndOf endDate currentDate)) (segEndOf endDate currentDate)
      rfl (parseISODate_formatDate hv hcy) rfl (parseISODate_formatDate hsv hsy)
      hge ?_
    cases hlast : isLastSeg endDate currentDate with
    | true =>
      have hEnd := (isLastSeg_iff hv he hg).mp hlast
      exact Or.inl ⟨prorateLoop_stop _ _ _ _ _ _ _ (by omega), hEnd⟩
    | false =>
      obtain ⟨hme, hlt⟩ := isLastSeg_false hv he hg hlast
      refine Or.inr ⟨?_, hlt, ?_⟩
      · rw [hme]; rfl
      · exact ih (nextDay (segEndOf endDate currentDate)) _ _ (nextDay_valid hsv)
          (by omega) (by omega)

theorem parseISODate_empty : parseISODate "" = none := by decide

theorem parseISODate_ne_empty {s : String} {x : Date}
    (h : parseISODate s = some x) : s ≠ "" := by
  intro hs
  rw [hs, parseISODate_empty] at h
  exact Option.noConfusion h

/-- Reduction of `prorateFlight` when both date strings are present and
parse. -/
theorem prorateFlight_eq_of_parse (flight : FlightSegment) {ss es : String}
    {s e : Date} (hss : flight.start = some ss) (hes : flight.«end» = some es)
    (hps : parseISODate ss = some s) (hpe : parseISODate es = some e) :
    prorateFlight flight =
      if s.m = e.m ∧ s.y = e.y then
        [{ flight with
             segment_days := some ((e.toAbs : ℤ) - (s.toAbs : ℤ) + 1),
             proration_factor := some 1 }]
      else
        prorateLoop flight e ((e.toAbs : ℤ) - (s.toAbs : ℤ) + 1) (e.toAbs + 1) s
          (flight.cost.getD 0) (flight.units.getD 0) := by
  unfold prorateFlight
  rw [hss, hes]
  dsimp only
  rw [if_neg (by push_neg; exact ⟨parseISODate_ne_empty hps, parseISODate_ne_empty hpe⟩)]
  rw [hps, hpe]

/-- **C1**: for every flight with both dates present and parseable with
start ≤ end, and with units and a cent-exact cost present, the segments
returned by the segmenter sum (units exactly, cost exactly to the cent) back
to the original flight's units and cost, however many month boundaries the
range crosses. -/
theorem C1_prorateFlight_conservation (flight : FlightSegment) (ss es : String)
    (s e : Date) (c u : ℚ) (k : ℤ)
    (hss : flight.start = some ss) (hes : flight.«end» = some es)
    (hps : parseISODate ss = some s) (hpe : parseISODate es = some e)
    (hle : s.toAbs ≤ e.toAbs)
    (hc : flight.cost = some c) (hu : flight.units = some u)
    (hk : c = (k : ℚ) / 100) :
    ((prorateFlight flight).map (fun sg => sg.cost.getD 0)).sum = c ∧
    ((prorateFlight flight).map (fun sg => sg.units.getD 0)).sum = u := by
  rw [prorateFlight_eq_of_parse flight hss hes hps hpe]
  by_cases hsame : s.m = e.m ∧ s.y = e.y
  · rw [if_pos hsame]
    simp [hc, hu]
  · rw [if_neg hsame]
    constructor
    · rw [prorateLoop_cost_sum flight e _ c hc (parseISODate_valid hpe) _ s _ _
        (parseISODate_valid hps) hle (by omega)]
      rw [hc]
      simp only [Option.getD_some]
      rw [hk]
      exact round2_cent k
    · rw [prorateLoop_units_sum flight e _ u hu (parseISODate_valid hpe) _ s _ _
        (parseISODate_valid hps) hle (by omega)]
      rw [hu]
      rfl

/-- Scenario-A-style concrete inputs used by the witnesses below. -/
def exProv : SegProvenance := ⟨"", "", (0, 0), (0, 0), ""⟩

def exFlightA : FlightSegment :=
  ⟨none, some "P1", some "F", some "2025-09-29", some "2025-10-05", some 700,
   none, none, none, some 700, none, none, none, exProv⟩

/-- **C1 (witness)**: scenario A — 2025-09-29..2025-10-05, units 700, cost
700.00 — reconstructs 700 / 700 exactly. -/
theorem C1_witness :
    ((prorateFlight exFlightA).map (fun sg => sg.cost.getD 0)).sum = 700 ∧
    ((prorateFlight exFlightA).map (fun sg => sg.units.getD 0)).sum = 700 :=
  C1_prorateFlight_conservation exFlightA "2025-09-29" "2025-10-05"
    ⟨2025, 9, 29⟩ ⟨2025, 10, 5⟩ 700 700 70000 rfl rfl (by decide) (by decide)
    (by decide) rfl rfl (by norm_num)

/-- **C2**: for every flight with both dates present and parseable with
start ≤ end, the segments returned by the segmenter partition the inclusive
day range `[start, end]` — no gaps, no overlaps, chronological order, every
cut at a calendar month boundary (`PartitionFrom`). -/
theorem C2_prorateFlight_partition (flight : FlightSegment) (ss es : String)
    (s e : Date) (hss : flight.start = some ss) (hes : flight.«end» = some es)
    (hps : parseISODate ss = some s) (hpe : parseISODate es = some e)
    (hle : s.toAbs ≤ e.toAbs) :
    PartitionFrom e s (prorateFlight flight) := by
  rw [prorateFlight_eq_of_parse flight hss hes hps hpe]
  by_cases hsame : s.m = e.m ∧ s.y = e.y
  · rw [if_pos hsame]
    exact partitionFrom_cons ss es e hss hps hes hpe hle (Or.inl ⟨rfl, rfl⟩)
  · rw [if_neg hsame]
    exact prorateLoop_partition flight e _ (parseISODate_valid hpe)
      (parseISODate_year_le hpe) _ s _ _ (parseISODate_valid hps) hle (by omega)

/-- **C2 (witness)**: scenario A's flight partitions 2025-09-29..2025-10-05. -/
theorem C2_witness :
    PartitionFrom ⟨2025, 10, 5⟩ ⟨2025, 9, 29⟩ (prorateFlight exFlightA) :=
  C2_prorateFlight_partition exFlightA "2025-09-29" "2025-10-05"
    ⟨2025, 9, 29⟩ ⟨2025, 10, 5⟩ rfl rfl (by decide) (by decide) (by decide)

/-- **C6 (amended)**: a flight with both dates present and start > end is
*not* uniformly passed through as a single segment: if start and end fall in
the same calendar month the flight comes back as one segment (other fields
untouched, `proration_factor` 1.0 and a non-positive `segment_days`); if
they fall in different months the `while` loop never runs and the flight is
dropped — `prorateFlight` returns the empty list.  No error is raised in
either case. -/
theorem C6_amended_start_after_end (flight : FlightSegment) (ss es : String)
    (s e : Date) (hss : flight.start = some ss) (hes : flight.«end» = some es)
    (hps : parseISODate ss = some s) (hpe : parseISODate es = some e)
    (hgt : e.toAbs < s.toAbs) :
    (s.m = e.m ∧ s.y = e.y →
      prorateFlight flight =
        [{ flight with
             segment_days := some ((e.toAbs : ℤ) - (s.toAbs : ℤ) + 1),
             proration_factor := some 1 }]) ∧
    (¬(s.m = e.m ∧ s.y = e.y) → prorateFlight flight = []) := by
  rw [prorateFlight_eq_of_parse flight hss hes hps hpe]
  constructor
  · intro hsame
    rw [if_pos hsame]
  · intro hsame
    rw [if_neg hsame]
    exact prorateLoop_stop _ _ _ _ _ _ _ hgt

/-- A start > end flight crossing a month boundary (start 2025-10-05, end
2025-09-20). -/
def exFlightRev : FlightSegment :=
  ⟨none, some "P1", some "F", some "2025-10-05", some "2025-09-20", some 700,
   none, none, none, some 700, none, none, none, exProv⟩

/-- **C6 (counterexample)**: `exFlightRev` has both dates present (start >
end, different months); the claim says it is passed through unmodified as a
single segment, but `prorateFlight` returns the empty list — the flight is
dropped. -/
theorem C6_counterexample :
    exFlightRev.start = some "2025-10-05" ∧
    exFlightRev.«end» = some "2025-09-20" ∧
    prorateFlight exFlightRev = [] ∧
    prorateFlight exFlightRev ≠ [exFlightRev] := by
  refine ⟨rfl, rfl, by decide, by decide⟩

/-- **C6 (witness)**: the amended theorem applied to `exFlightRev`. -/
theorem C6_witness : prorateFlight exFlightRev = [] :=
  (C6_amended_start_after_end exFlightRev "2025-10-05" "2025-09-20"
    ⟨2025, 10, 5⟩ ⟨2025, 9, 20⟩ rfl rfl (by decide) (by decide) (by decide)).2
    (by decide)

/-- **C5 (amended)**: `applyFlightLogic` always writes the totals back as
`some (original-value-or-0)` — a non-null total is copied unchanged, but a
null total is coerced by `|| 0` to the number 0; segmentation never otherwise
alters the document-level declared totals. -/
theorem C5_amended_totals (doc : ProcessedIOData) :
    (applyFlightLogic doc).1.total_campaign_spend =
      some (doc.total_campaign_spend.getD 0) ∧
    (applyFlightLogic doc).1.total_contracted_impressions =
      some (doc.total_contracted_impressions.getD 0) ∧
    (∀ v, doc.total_campaign_spend = some v →
      (applyFlightLogic doc).1.total_campaign_spend = some v) ∧
    (∀ v, doc.total_contracted_impressions = some v →
      (applyFlightLogic doc).1.total_contracted_impressions = some v) := by
  refine ⟨rfl, rfl, ?_, ?_⟩
  · intro v hv
    show some (doc.total_campaign_spend.getD 0) = some v
    rw [hv]
    rfl
  · intro v hv
    show some (doc.total_contracted_impressions.getD 0) = some v
    rw [hv]
    rfl

/-- A document with null declared totals and no flights. -/
def exDocNullTotals : ProcessedIOData :=
  ⟨none, none, none, none, none, none, none, none, 2, none, [], ⟨"", [], []⟩, []⟩

/-- **C5 (counterexample)**: on a document whose `total_campaign_spend` and
`total_contracted_impressions` are null, the normalizer emits `some 0` for
both — the totals are *not* copied through unchanged when null. -/
theorem C5_counterexample :
    exDocNullTotals.total_campaign_spend = none ∧
    exDocNullTotals.total_contracted_impressions = none ∧
    (applyFlightLogic exDocNullTotals).1.total_campaign_spend = some 0 ∧
    (applyFlightLogic exDocNullTotals).1.total_contracted_impressions = some 0 ∧
    (applyFlightLogic exDocNullTotals).1.total_campaign_spend ≠
      exDocNullTotals.total_campaign_spend := by
  refine ⟨rfl, rfl, rfl, rfl, by decide⟩

/-! ## Confidence scoring (`src/backend/pipeline/apply_confidence.ts`)

Types from `types.ts`.  JS values flowing through the `any[]` stability
interface are modelled by `JSValue`. -/

inductive ConfStatus where
  | use
  | review
  | reject
deriving DecidableEq, Repr

inductive JSValue where
  | vStr (s : String)
  | vNum (q : ℚ)
  | vNull
  | vUndef
deriving DecidableEq, Repr

structure ConfidenceComponent where
  name : String
  score : ℚ
  notes : String
deriving DecidableEq, Repr

structure FieldConfidence where
  field : String
  confidence_score : ℚ
  status : ConfStatus
  components : List ConfidenceComponent
  values_across_runs : List JSValue
deriving DecidableEq, Repr

structure ReportSummary where
  use_count : Nat
  review_count : Nat
  reject_count : Nat
deriving DecidableEq, Repr

structure ConfidenceReport where
  overall_score : ℚ
  field_confidences : List FieldConfidence
  summary : ReportSummary
deriving DecidableEq, Repr

structure FlightProvenance where
  quote : String
  location_hint : String
  find_confidence : ℚ
  value_confidence : ℚ
  rationale : String
deriving DecidableEq, Repr

structure FlightItem where
  index : Option ℤ
  placement_id : Option String
  name : Option String
  start : Option String
  «end» : Option String
  units : Option ℚ
  unit_type : Option String
  rate_cpm : Option ℚ
  cost_method : Option String
  cost : Option ℚ
  currency : Option String
  provenance : FlightProvenance
  segment_days : Option ℤ
  proration_factor : Option ℚ
deriving DecidableEq, Repr

/-- Document-level provenance entries; `location_hint` and the two
confidences are `Option` because the code guards them with `?.` and
`!== undefined`. -/
structure ProvEntry where
  field : String
  quote : String
  location_hint : Option String
  find_confidence : Option ℚ
  value_confidence : Option ℚ
  rationale : String
deriving DecidableEq, Repr

/-- The TS interface `IOData` (`types.ts`), including the compat `start` /
`end` top-level fields. -/
structure IOData where
  advertiser_name : Option String
  agency_name : Option String
  campaign_total_flight : Option CampaignWindow
  total_contracted_impressions : Option ℚ
  total_campaign_spend : Option ℚ
  currency : Option String
  po_number : Option String
  account_executive_name : Option String
  frequency_cap : ℚ
  period : Option CampaignWindow
  flights : List FlightItem
  provenance : List ProvEntry
  start : Option String
  «end» : Option String
deriving DecidableEq, Repr

/-! String helpers for the JS string operations used by the validators. -/

def isInfixList (sub : List Char) : List Char → Bool
  | [] => sub.isEmpty
  | c :: rest => sub.isPrefixOf (c :: rest) || isInfixList sub rest

/-- JS `haystack.includes(needle)`. -/
def jsIncludes (hay sub : String) : Bool := isInfixList sub.toList hay.toList

/-- JS `s.toLowerCase()` (character-wise, as `String.toLower` computes it). -/
def strToLower (s : String) : String := ⟨s.toList.map Char.toLower⟩

/-- JS `s.replace(/\s+/g, ' ')`: collapse every whitespace run to one space. -/
def collapseWsAux : List Char → List Char
  | [] => []
  | [c] => [if c.isWhitespace then ' ' else c]
  | c :: c2 :: rest =>
    if c.isWhitespace && c2.isWhitespace then collapseWsAux (c2 :: rest)
    else (if c.isWhitespace then ' ' else c) :: collapseWsAux (c2 :: rest)

def collapseWs (s : String) : String := ⟨collapseWsAux s.toList⟩

/-- JS `s.replace(/\([^)]*\)$/, '')`: strip one trailing parenthesised
suffix. -/
def stripParenSuffix (s : String) : String :=
  match s.toList.reverse with
  | ')' :: rest =>
    let inner := rest.takeWhile (fun c => c ≠ '(' && c ≠ ')')
    match rest.drop inner.length with
    | '(' :: before => ⟨before.reverse⟩
    | _ => s
  | _ => s

/-- The `normalize` closure of `calculateStringSimilarity`: lowercase,
collapse whitespace, trim, strip a trailing parenthetical, trim. -/
def normalizeStr (s : String) : String :=
  (stripParenSuffix (collapseWs (strToLower s)).trim).trim

/-- One row update of the Levenshtein DP matrix (`matrix[i][j] =
if eq then m[i-1][j-1] else 1 + min(m[i-1][j-1], m[i][j-1], m[i-1][j])`);
`prev` walks the previous row, `left` is the entry just computed. -/
def levNewRow (c : Char) : List Char → List Nat → Nat → List Nat
  | [], _, _ => []
  | a :: as, diag :: rest, left =>
    let cur := if c = a then diag else 1 + min diag (min left (rest.headD 0))
    cur :: levNewRow c as rest cur
  | _ :: _, [], _ => []

/-- `levenshteinDistance` of the source: full DP over the two strings. -/
def levenshteinDistance (str1 str2 : String) : Nat :=
  let row0 := List.range (str1.length + 1)
  let finalRow := str2.toList.foldl
    (fun (acc : List Nat × Nat) c =>
      ((acc.2 + 1) :: levNewRow c str1.toList acc.1 (acc.2 + 1), acc.2 + 1))
    (row0, 0)
  finalRow.1.getLastD 0

/-- `calculateStringSimilarity`. -/
def calculateStringSimilarity (str1 str2 : String) : ℚ :=
  if str1 = str2 then 1
  else
    let norm1 := normalizeStr str1
    let norm2 := normalizeStr str2
    if norm1 = norm2 then 0.95
    else
      let maxLen := max norm1.length norm2.length
      if maxLen = 0 then 1
      else
        let distance := levenshteinDistance norm1 norm2
        max 0 (((maxLen : ℚ) - (distance : ℚ)) / (maxLen : ℚ))

/-- `parseNumeric`: every numeric field reaching it in this pipeline is
already a JS number or null, on which `Number` is the identity, so the
embedding is the identity on `Option ℚ`. -/
def parseNumeric (x : Option ℚ) : Option ℚ := x

/-- `parseDate`: JS-falsy strings (null / empty) and unparseable strings
give null. -/
def parseDateStr (x : Option String) : Option Date :=
  match x with
  | none => none
  | some s => if s = "" then none else parseISODate s

/-! Rendering helpers for the note strings (`toFixed`, `toLocaleString` with
the default en-US locale, and raw number interpolation, which we render via
the rational's canonical integer form). -/

def toFixed0 (q : ℚ) : String := toString (jsRound q)

def toFixed1 (q : ℚ) : String :=
  let m := jsRound (q * 10)
  toString (m / 10) ++ "." ++ toString (m % 10)

def toFixed2 (q : ℚ) : String :=
  let m := jsRound (q * 100)
  toString (m / 100) ++ "." ++ (if m % 100 < 10 then "0" else "") ++ toString (m % 100)

def insertCommasAux : List Char → List Char
  | a :: b :: c :: d :: rest => a :: b :: c :: ',' :: insertCommasAux (d :: rest)
  | l => l

def natGrouped (n : Nat) : String :=
  ⟨(insertCommasAux (toString n).toList.reverse).reverse⟩

def jsLocaleNonneg (q : ℚ) : String :=
  let m := (jsRound (q * 1000)).toNat
  let ip := m / 1000
  let fr := m % 1000
  if fr = 0 then natGrouped ip
  else
    let frs := (if fr < 100 then "0" else "") ++ (if fr < 10 then "0" else "") ++ toString fr
    natGrouped ip ++ "." ++ ⟨(frs.toList.reverse.dropWhile (· = '0')).reverse⟩

/-- `x.toLocaleString()` under the en-US default: thousands separators, at
most 3 fraction digits, trailing fraction zeros stripped. -/
def jsLocaleString (q : ℚ) : String :=
  if q < 0 then "-" ++ jsLocaleNonneg (-q) else jsLocaleNonneg q

/-- Raw `${number}` interpolation, rendered from the canonical rational. -/
def jsNumRepr (q : ℚ) : String :=
  if q.den = 1 then toString q.num else toString q.num ++ "/" ++ toString q.den

/-! The validator catalogue (R1–R12). -/

/-- R1 `validateBudgetFormat`. -/
def validateBudgetFormat (totalSpend : Option ℚ) : ConfidenceComponent :=
  match parseNumeric totalSpend with
  | some v =>
    if 0 < v then ⟨"budget_format", 1.0, "Valid positive budget"⟩
    else ⟨"budget_format", 0.0, "Invalid or missing budget"⟩
  | none => ⟨"budget_format", 0.0, "Invalid or missing budget"⟩

/-- R2 `validateCpmFormat`. -/
def validateCpmFormat (cpm : Option ℚ) : ConfidenceComponent :=
  match parseNumeric cpm with
  | some v =>
    if 0 < v then ⟨"cpm_format", 1.0, "Valid positive CPM"⟩
    else ⟨"cpm_format", 0.0, "Invalid or missing CPM"⟩
  | none => ⟨"cpm_format", 0.0, "Invalid or missing CPM"⟩

/-- R3 `validateImpressionsFormat` (`Number.isInteger` is `den = 1`). -/
def validateImpressionsFormat (impressions : Option ℚ) : ConfidenceComponent :=
  match parseNumeric impressions with
  | some v =>
    if v.den = 1 ∧ 1000 < v then ⟨"impressions_format", 1.0, "Valid impressions count"⟩
    else ⟨"impressions_format", 0.0, "Invalid impressions (must be integer > 1000)"⟩
  | none => ⟨"impressions_format", 0.0, "Invalid impressions (must be integer > 1000)"⟩

/-- R4 `validateCampaignDatesFormat`. -/
def validateCampaignDatesFormat (startDate endDate : Option String) : ConfidenceComponent :=
  match parseDateStr startDate, parseDateStr endDate with
  | some s, some e =>
    if s.toAbs ≤ e.toAbs then
      ⟨"campaign_dates_format", 1.0, "Valid ordered campaign dates"⟩
    else ⟨"campaign_dates_format", 0.0, "Invalid or unordered campaign dates"⟩
  | _, _ => ⟨"campaign_dates_format", 0.0, "Invalid or unordered campaign dates"⟩

/-- R5 `validateFlightDatesFormat`. -/
def validateFlightDatesFormat (flights : List FlightItem) : ConfidenceComponent :=
  if flights.length = 0 then
    ⟨"flight_row_dates_format", 0.7, "No flights to validate"⟩
  else
    let validCount := (flights.filter (fun f =>
      match parseDateStr f.start, parseDateStr f.«end» with
      | some s, some e => decide (s.toAbs ≤ e.toAbs)
      | _, _ => false)).length
    ⟨"flight_row_dates_format", (validCount : ℚ) / (flights.length : ℚ),
     toString validCount ++ "/" ++ toString flights.length ++ " flights have valid dates"⟩

/-- The per-field keyword table of R6 `validateSpanQuality`. -/
def fieldKeywords (field : String) :
    Option (List String × List String × List String) :=
  if field = "advertiser_name" then
    some (["advertiser/brand", "advertiser name", "brand name", "primary ad server"],
          ["advertiser", "brand", "client name", "client:", "company name", "ad server"],
          ["supplier", "from:", "to:", "account", "customer"])
  else if field = "agency_name" then
    some (["agency name", "from to section", "agency:", "from/to"],
          ["agency", "client", "from", "to", "account manager", "contact"],
          ["supplier", "vendor", "partner"])
  else if field = "total_campaign_spend" then
    some (["order total", "campaign total", "total cost", "total spend"],
          ["total", "budget", "spend", "cost", "amount", "price", "investment"],
          ["revenue", "billing", "invoice", "payment"])
  else if field = "total_contracted_impressions" then
    some (["order total", "total impressions", "contracted impressions"],
          ["total", "impressions", "imps", "delivery", "volume"],
          ["units", "quantity", "reach", "views"])
  else if field = "po_number" then
    some (["order number", "po number", "purchase order"],
          ["order", "po", "purchase", "order #", "po #", "reference"],
          ["id", "number", "code", "ref", "external"])
  else if field = "frequency_cap" then
    some (["frequency caps", "frequency cap", "frequency limit"],
          ["frequency", "cap", "limit", "per day", "daily", "weekly"],
          ["impression", "delivery", "control", "pacing"])
  else if field = "currency" then
    some (["currency", "usd", "$", "dollar"],
          ["budget", "spend", "cost", "total", "amount"],
          ["price", "payment", "billing", "financial"])
  else if field = "start_date" then
    some (["start date", "campaign start", "flight start", "begin date"],
          ["start", "begin", "from", "launch", "kickoff", "campaign dates"],
          ["date", "period", "schedule", "timing"])
  else if field = "end_date" then
    some (["end date", "campaign end", "flight end", "completion date"],
          ["end", "finish", "to", "close", "wrap", "campaign dates"],
          ["date", "period", "schedule", "timing"])
  else if field = "period_start" then
    some (["period start", "period labels", "campaign period", "inferred", "implied"],
          ["period", "start", "begin", "flight", "duration", "timeline"],
          ["schedule", "timing", "calendar", "range"])
  else if field = "period_end" then
    some (["period end", "period labels", "campaign period", "inferred", "implied"],
          ["period", "end", "finish", "flight", "duration", "timeline"],
          ["schedule", "timing", "calendar", "range"])
  else if field = "account_executive_name" then
    some (["account executive", "ae name", "account manager"],
          ["account exec", "ae", "executive", "manager", "contact", "representative"],
          ["sales", "rep", "owner", "lead", "coordinator"])
  else none

def containsAnyKeyword (text : String) (keywords : List String) : Bool :=
  keywords.any (fun k => jsIncludes text (strToLower k))

def matchedKeyword (text : String) (keywords : List String) : String :=
  (keywords.find? (fun k => jsIncludes text (strToLower k))).getD "undefined"

def commonSections : List String :=
  ["header", "footer", "summary", "details", "information", "data", "table", "section"]

/-- R6 `validateSpanQuality`. -/
def validateSpanQuality (field : String) (location : Option String) : ConfidenceComponent :=
  match location with
  | none => ⟨"span_quality", 0.6, "No location information available"⟩
  | some loc =>
    if loc = "" then ⟨"span_quality", 0.6, "No location information available"⟩
    else
      let locationLower := strToLower loc
      match fieldKeywords field with
      | none => ⟨"span_quality", 0.6, "Unknown field for span quality check"⟩
      | some (primary, good, acceptable) =>
        if containsAnyKeyword locationLower primary then
          ⟨"span_quality", 1.0, "Found in primary expected location: \"" ++
            matchedKeyword locationLower primary ++ "\""⟩
        else if containsAnyKeyword locationLower good then
          ⟨"span_quality", 0.9, "Found in good location: \"" ++
            matchedKeyword locationLower good ++ "\""⟩
        else if containsAnyKeyword locationLower acceptable then
          ⟨"span_quality", 0.7, "Found in acceptable location: \"" ++
            matchedKeyword locationLower acceptable ++ "\""⟩
        else if containsAnyKeyword locationLower commonSections then
          ⟨"span_quality", 0.6, "Found in document section: \"" ++
            ((commonSections.find? (fun sec => jsIncludes locationLower sec)).getD "undefined")
            ++ "\" - may be valid"⟩
        else
          ⟨"span_quality", 0.5, "Location \"" ++ loc ++
            "\" not in expected areas - manual review recommended"⟩

inductive FieldType where
  | string
  | number
  | other
deriving DecidableEq, Repr

/-- `JSON.stringify` on the values reaching the stability fallback
(`undefined` serialises to no string at all). -/
def jsonStringify : JSValue → Option String
  | .vStr s => some ("\"" ++ ⟨s.toList.foldr (fun c acc =>
      if c = '"' ∨ c = '\\' then '\\' :: c :: acc else c :: acc) []⟩ ++ "\"")
  | .vNum q => some (jsNumRepr q)
  | .vNull => some "null"
  | .vUndef => none

/-- R7 `validateStability`. -/
def validateStability (values : List JSValue) (fieldType : FieldType) : ConfidenceComponent :=
  match values with
  | [] => ⟨"stability", 0.7, "No data available for stability check"⟩
  | [_] => ⟨"stability", 0.8, "Single run - no stability comparison available"⟩
  | [v0, v1] =>
    let similarity : ℚ :=
      match fieldType, v0, v1 with
      | .string, .vStr a, .vStr b => calculateStringSimilarity a b
      | _, _, _ => if v0 = v1 then 1 else 0
    let score : ℚ := if similarity ≥ 0.9 then 0.9 else if similarity ≥ 0.7 then 0.7 else 0.6
    ⟨"stability", score,
     "Two runs - " ++
       (if similarity ≥ 0.9 then "very similar"
        else if similarity ≥ 0.7 then "similar" else "different") ++
       " values (" ++ toFixed0 (similarity * 100) ++ "% similarity)"⟩
  | [v0, v1, v2] =>
    match fieldType, v0, v1, v2 with
    | .string, .vStr a, .vStr b, .vStr c =>
      let sim12 := calculateStringSimilarity a b
      let sim13 := calculateStringSimilarity a c
      let sim23 := calculateStringSimilarity b c
      let avgSimilarity := (sim12 + sim13 + sim23) / 3
      if avgSimilarity ≥ 0.95 then
        ⟨"stability", 1.0, "Highly consistent across 3 runs (" ++
          toFixed0 (avgSimilarity * 100) ++ "% avg similarity)"⟩
      else if avgSimilarity ≥ 0.85 then
        ⟨"stability", 0.9, "Very similar across 3 runs (" ++
          toFixed0 (avgSimilarity * 100) ++ "% avg similarity)"⟩
      else if avgSimilarity ≥ 0.7 then
        ⟨"stability", 0.7, "Moderately similar across 3 runs (" ++
          toFixed0 (avgSimilarity * 100) ++ "% avg similarity)"⟩
      else
        ⟨"stability", 0.4, "Low similarity across 3 runs (" ++
          toFixed0 (avgSimilarity * 100) ++ "% avg similarity)"⟩
    | _, _, _, _ =>
      let uniqueCount := ([v0, v1, v2].map jsonStringify).dedup.length
      match uniqueCount with
      | 1 => ⟨"stability", 1.0, "Consistent across all 3 runs"⟩
      | 2 => ⟨"stability", 0.7, "Two different values across 3 runs"⟩
      | 3 => ⟨"stability", 0.4, "Three different values across 3 runs"⟩
      | _ => ⟨"stability", 0.4, "High variance across runs"⟩
  | _ =>
    ⟨"stability", 0.7,
     toString values.length ++ " runs provided (expected 3 for full stability analysis)"⟩

/-- `validateFlightDates`. -/
def validateFlightDates (flight : FlightItem) : ConfidenceComponent :=
  match parseDateStr flight.start, parseDateStr flight.«end» with
  | some s, some e =>
    if e.toAbs < s.toAbs then ⟨"flight_dates", 0.2, "Start date is after end date"⟩
    else ⟨"flight_dates", 1.0, "Valid flight date range"⟩
  | _, _ => ⟨"flight_dates", 0.0, "Invalid or missing flight dates"⟩

/-- `validateFlightCpm`. -/
def validateFlightCpm (flight : FlightItem) : ConfidenceComponent :=
  match parseNumeric flight.rate_cpm with
  | none => ⟨"flight_cpm", 0.7, "No CPM specified (may be added value)"⟩
  | some cpm =>
    if cpm < 0 then ⟨"flight_cpm", 0.0, "Negative CPM is invalid"⟩
    else if cpm = 0 then ⟨"flight_cpm", 0.8, "Zero CPM (likely added value flight)"⟩
    else if cpm < 100 then ⟨"flight_cpm", 1.0, "Valid CPM range"⟩
    else ⟨"flight_cpm", 0.6, "Unusually high CPM - verify"⟩

/-- `validateFlightUnits`. -/
def validateFlightUnits (flight : FlightItem) : ConfidenceComponent :=
  match parseNumeric flight.units with
  | none => ⟨"flight_units", 0.0, "Missing units/impressions"⟩
  | some units =>
    if units < 0 then ⟨"flight_units", 0.0, "Negative units are invalid"⟩
    else if units = 0 then ⟨"flight_units", 0.3, "Zero units - unusual"⟩
    else if units < 1000 then ⟨"flight_units", 0.5, "Very low impression count - verify"⟩
    else ⟨"flight_units", 1.0, "Valid impression count"⟩

/-- `validateFlightCost`: the cost-consistency rule with its zero-tolerance
mismatch branch. -/
def validateFlightCost (flight : FlightItem) : ConfidenceComponent :=
  match parseNumeric flight.cost with
  | none => ⟨"flight_cost", 0.0, "Missing cost"⟩
  | some cost =>
    if cost < 0 then ⟨"flight_cost", 0.0, "Negative cost is invalid"⟩
    else if cost = 0 then
      if parseNumeric flight.rate_cpm = some 0 then
        ⟨"flight_cost", 0.8, "Zero cost for added value flight"⟩
      else ⟨"flight_cost", 0.3, "Zero cost with non-zero CPM - verify"⟩
    else
      match parseNumeric flight.rate_cpm, parseNumeric flight.units with
      | some cpm, some units =>
        if 0 < cpm ∧ 0 < units then
          let expectedCost := cpm * units / 1000
          let costDiff := |cost - expectedCost| / expectedCost
          if costDiff < 0.001 then
            ⟨"flight_cost", 1.0, "Cost matches CPM calculation perfectly"⟩
          else
            ⟨"flight_cost", 0.0,
             "PARSING ERROR: Cost calculation mismatch by " ++ toFixed2 (costDiff * 100) ++
               "% - Expected: " ++ toFixed2 expectedCost ++ ", Actual: " ++ jsNumRepr cost ++
               ". This indicates incorrect parsing."⟩
        else ⟨"flight_cost", 0.8, "Valid cost (unable to verify against CPM)"⟩
      | _, _ => ⟨"flight_cost", 0.8, "Valid cost (unable to verify against CPM)"⟩

/-- `validateFlightWithinCampaignPeriod`: containment gate. -/
def validateFlightWithinCampaignPeriod (flight : FlightItem)
    (campaignStart campaignEnd : String) : ConfidenceComponent :=
  match parseDateStr flight.start, parseDateStr flight.«end» with
  | some fs, some fe =>
    match parseDateStr (some campaignStart), parseDateStr (some campaignEnd) with
    | some cs, some ce =>
      if cs.toAbs ≤ fs.toAbs ∧ fe.toAbs ≤ ce.toAbs then
        ⟨"flight_within_campaign", 1.0,
         "Flight (" ++ optStr flight.start ++ " to " ++ optStr flight.«end» ++
           ") is within campaign period (" ++ campaignStart ++ " to " ++ campaignEnd ++ ")"⟩
      else
        let issue1 :=
          if fs.toAbs < cs.toAbs then
            "Flight starts before campaign (" ++ optStr flight.start ++ " < " ++
              campaignStart ++ ")"
          else ""
        let issue :=
          if ce.toAbs < fe.toAbs then
            (if issue1 = "" then "" else issue1 ++ "; ") ++
              "Flight ends after campaign (" ++ optStr flight.«end» ++ " > " ++
                campaignEnd ++ ")"
          else issue1
        ⟨"flight_within_campaign", 0.0,
         "REJECT: Flight outside campaign period - " ++ issue⟩
    | _, _ =>
      ⟨"flight_within_campaign", 0.7, "Invalid campaign dates - cannot validate flight period"⟩
  | _, _ =>
    ⟨"flight_within_campaign", 0.3, "Invalid flight dates - cannot validate against campaign period"⟩

/-- The component list assembled by `validateIndividualFlight` (the period
check is pushed only when both campaign bounds are JS-truthy). -/
def flightComponents (flight : FlightItem)
    (campaignStart campaignEnd : Option String) : List ConfidenceComponent :=
  [validateFlightDates flight, validateFlightCpm flight,
   validateFlightUnits flight, validateFlightCost flight] ++
  (match campaignStart, campaignEnd with
   | some cs, some ce =>
     if cs ≠ "" ∧ ce ≠ "" then [validateFlightWithinCampaignPeriod flight cs ce] else []
   | _, _ => [])

/-- `` `flight_${flight.index || 'unknown'}` ``. -/
def flightFieldName (flight : FlightItem) : String :=
  "flight_" ++
    (match flight.index with
     | some i => if i = 0 then "unknown" else toString i
     | none => "unknown")

/-- Arithmetic mean of component scores. -/
def meanScore (comps : List ConfidenceComponent) : ℚ :=
  (comps.foldl (fun s c => s + c.score) 0) / (comps.length : ℚ)

/-- The shared `use`/`review`/`reject` thresholds (≥ 0.80 / ≥ 0.55). -/
def statusOf (score : ℚ) : ConfStatus :=
  if score ≥ 0.80 then .use else if score ≥ 0.55 then .review else .reject

/-- Looks up a named component and tests its score against 0 (the
`find(...) && score === 0.0` gates). -/
def gateTriggered (comps : List ConfidenceComponent) (gateName : String) : Bool :=
  match comps.find? (fun c => c.name == gateName) with
  | some comp => comp.score == 0
  | none => false

/-- `validateIndividualFlight`: the per-flight aggregation with the two hard
gates (cost consistency, period containment). -/
def validateIndividualFlight (flight : FlightItem)
    (campaignStart campaignEnd : Option String) : FieldConfidence :=
  if gateTriggered (flightComponents flight campaignStart campaignEnd) "flight_cost" then
    ⟨flightFieldName flight, 0.0, .reject,
     flightComponents flight campaignStart campaignEnd, []⟩
  else if gateTriggered (flightComponents flight campaignStart campaignEnd)
      "flight_within_campaign" then
    ⟨flightFieldName flight, 0.0, .reject,
     flightComponents flight campaignStart campaignEnd, []⟩
  else
    ⟨flightFieldName flight,
     meanScore (flightComponents flight campaignStart campaignEnd),
     statusOf (meanScore (flightComponents flight campaignStart campaignEnd)),
     flightComponents flight campaignStart campaignEnd, []⟩

/-- `validateTotalImpressionsMatchFlights` (zero tolerance). -/
def validateTotalImpressionsMatchFlights (totalImpressions : Option ℚ)
    (flights : List FlightItem) : ConfidenceComponent :=
  match parseNumeric totalImpressions with
  | none => ⟨"total_impressions_match", 0.7, "No total impressions to validate against"⟩
  | some total =>
    if flights.length = 0 then
      ⟨"total_impressions_match", 0.5, "No flights to compare against total impressions"⟩
    else
      let sumFlightUnits := flights.foldl (fun s f => s + (parseNumeric f.units).getD 0) 0
      if sumFlightUnits = 0 then
        ⟨"total_impressions_match", 0.3, "Flight units sum to zero"⟩
      else
        let difference := |total - sumFlightUnits|
        if difference = 0 then
          ⟨"total_impressions_match", 1.0,
           "Perfect match: Total impressions equals sum of flight units"⟩
        else
          ⟨"total_impressions_match", 0.0,
           "PARSING ERROR: Total impressions mismatch - Total=" ++ jsLocaleString total ++
             ", Flight Sum=" ++ jsLocaleString sumFlightUnits ++ ", Diff=" ++
             jsLocaleString difference ++ " (" ++ toFixed1 (difference / total * 100) ++
             "%). This indicates incorrect parsing."⟩

/-- R8 `validateNumericTriangle`. -/
def validateNumericTriangle (budget cpm impressions : Option ℚ) : ConfidenceComponent :=
  match parseNumeric budget, parseNumeric cpm, parseNumeric impressions with
  | some b, some p, some i =>
    let impliedImpressions := b / (p / 1000)
    let diff := |i - impliedImpressions| / impliedImpressions
    if diff < 0.05 then
      ⟨"numeric_triangle", 1.0, "Excellent match (" ++ toFixed1 (diff * 100) ++ "% difference)"⟩
    else if diff < 0.15 then
      ⟨"numeric_triangle", 0.8, "Good match (" ++ toFixed1 (diff * 100) ++ "% difference)"⟩
    else if diff < 0.30 then
      ⟨"numeric_triangle", 0.5, "Fair match (" ++ toFixed1 (diff * 100) ++ "% difference)"⟩
    else
      ⟨"numeric_triangle", 0.2, "Poor match (" ++ toFixed1 (diff * 100) ++ "% difference)"⟩
  | _, _, _ => ⟨"numeric_triangle", 0.7, "Missing values for triangle validation"⟩

/-- R10 `validateTotalsMatchSums` (zero tolerance, averaged over the budget
half and the impressions half). -/
def validateTotalsMatchSums (flights : List FlightItem)
    (totalBudget totalImpressions : Option ℚ) : ConfidenceComponent :=
  let sumBudget := flights.foldl (fun s f => s + (parseNumeric f.cost).getD 0) 0
  let sumImpressions := flights.foldl (fun s f => s + (parseNumeric f.units).getD 0) 0
  let budgetPart : ℚ × String :=
    match parseNumeric totalBudget with
    | some t =>
      let budgetDiff := |sumBudget - t|
      if budgetDiff < 0.01 then (1.0, "Budget: Perfect match")
      else
        (0.0, "Budget PARSING ERROR: Sum=" ++ jsLocaleString sumBudget ++ ", Total=" ++
          jsLocaleString t ++ ", Diff=" ++ jsLocaleString budgetDiff ++ " (" ++
          toFixed2 (budgetDiff / t * 100) ++ "%)")
    | none => (0.7, "Budget: No total to validate against")
  let impressionsPart : ℚ × String :=
    match parseNumeric totalImpressions with
    | some t =>
      let impressionsDiff := |sumImpressions - t|
      if impressionsDiff = 0 then (1.0, "Impressions: Perfect match")
      else
        (0.0, "Impressions PARSING ERROR: Sum=" ++ jsLocaleString sumImpressions ++
          ", Total=" ++ jsLocaleString t ++ ", Diff=" ++ jsLocaleString impressionsDiff ++
          " (" ++ toFixed1 (impressionsDiff / t * 100) ++ "%)")
    | none => (0.7, "Impressions: No total to validate against")
  let joined := String.intercalate "; "
    ([budgetPart.2, impressionsPart.2].filter (fun n => n ≠ ""))
  ⟨"totals_match_sums", (budgetPart.1 + impressionsPart.1) / 2,
   if joined = "" then "Unable to validate totals - missing declared totals" else joined⟩

/-- R11 `validateIdentityGuard`: returns the (advertiser, agency, supplier)
multipliers. -/
def validateIdentityGuard (advertiserName agencyName supplierName : Option String)
    (advertiserLocation agencyLocation supplierLocation : Option String) :
    ℚ × ℚ × ℚ :=
  let collide : Option String → Option String → Bool := fun a b =>
    match a, b with
    | some x, some y => x == y
    | _, _ => false
  let advName : ℚ := if collide advertiserName agencyName ||
    collide advertiserName supplierName then 0.4 else 1.0
  let agcName : ℚ := if collide advertiserName agencyName ||
    collide agencyName supplierName then 0.4 else 1.0
  let supName : ℚ := if collide advertiserName supplierName ||
    collide agencyName supplierName then 0.4 else 1.0
  let locPenalty : Option String → List String → ℚ := fun loc phrases =>
    match loc with
    | some l => if l ≠ "" ∧ phrases.any (fun p => jsIncludes (strToLower l) p) then 0.5 else 1.0
    | none => 1.0
  (advName * locPenalty advertiserLocation ["order total", "supplier", "traffic"],
   agcName * locPenalty agencyLocation ["order total", "supplier", "traffic"],
   supName * locPenalty supplierLocation ["advertiser", "brand", "client"])

/-- R12 `aggregateConfidence`: mean of the components, optional 60/40 blend
with the upstream LLM confidence, synthetic `confidence_merge` component,
0.80/0.55 thresholds. -/
def aggregateConfidence (field : String) (components : List ConfidenceComponent)
    (multiRunValues : List JSValue) (llmConfidence : Option (ℚ × ℚ)) : FieldConfidence :=
  let validationScore := meanScore components
  let merged : ℚ × String :=
    match llmConfidence with
    | some (f, v) =>
      let llmScore := (f + v) / 200
      (validationScore * 0.6 + llmScore * 0.4,
       "Merged: validation=" ++ toFixed1 (validationScore * 100) ++ "%, LLM=" ++
         toFixed1 (llmScore * 100) ++ "% (find:" ++ jsNumRepr f ++ ", value:" ++
         jsNumRepr v ++ ")")
    | none =>
      (validationScore,
       "Validation only: " ++ toFixed1 (validationScore * 100) ++
         "% (no LLM confidence available)")
  ⟨field, merged.1, statusOf merged.1,
   components ++ [⟨"confidence_merge", merged.1, merged.2⟩], multiRunValues⟩

/-- `getLLMConfidence`. -/
def getLLMConfidence (data : IOData) (fieldName : String) : Option (ℚ × ℚ) :=
  match data.provenance.find? (fun p => p.field == fieldName) with
  | some p =>
    match p.find_confidence, p.value_confidence with
    | some f, some v => some (f, v)
    | _, _ => none
  | none => none

/-- `calculateAverageCpm`. -/
def calculateAverageCpm (flights : List FlightItem) : Option ℚ :=
  let validFlights := flights.filter (fun f =>
    match f.rate_cpm with
    | some r => decide (0 < r)
    | none => false)
  if validFlights.length = 0 then none
  else some ((validFlights.foldl (fun s f => s + f.rate_cpm.getD 0) 0) /
    (validFlights.length : ℚ))

/-! `calculateConfidence` and its two inner closures. -/

def provByField (data : IOData) (f : String) : Option ProvEntry :=
  data.provenance.find? (fun p => p.field == f)

def provLoc (data : IOData) (f : String) : Option String :=
  (provByField data f).bind (fun p => p.location_hint)

def provLocContains (data : IOData) (sub : String) : Option String :=
  (data.provenance.find? (fun p =>
    match p.location_hint with
    | some l => jsIncludes (strToLower l) sub
    | none => false)).bind (fun p => p.location_hint)

def provFieldPred (data : IOData) (pred : ProvEntry → Bool) : Option String :=
  (data.provenance.find? pred).bind (fun p => p.location_hint)

/-- JS `a || b` on nullable strings (empty string is falsy). -/
def jsOr (x y : Option String) : Option String :=
  match x with
  | some s => if s = "" then y else some s
  | none => y

/-- The `getLocation` closure: direct provenance hit first, then the
per-field `||` fallback chains. -/
def getLocation (data : IOData) (fieldName : String) : Option String :=
  match provByField data fieldName with
  | some p => p.location_hint
  | none =>
    if fieldName = "advertiser_name" then
      jsOr (provLoc data "advertiser_name") (jsOr (provLoc data "brand_name")
        (jsOr (provLoc data "client_name") (jsOr (provLocContains data "advertiser")
          (jsOr (provLocContains data "brand")
            (jsOr (provLocContains data "primary ad server")
              (some "advertiser/brand section"))))))
    else if fieldName = "agency_name" then
      jsOr (provLoc data "agency_name") (jsOr (provLoc data "agency")
        (jsOr (provLocContains data "agency") (jsOr (provLocContains data "from")
          (some "agency/from section"))))
    else if fieldName = "total_campaign_spend" then
      jsOr (provLoc data "total_campaign_spend") (jsOr (provLoc data "budget")
        (jsOr (provLoc data "total_spend") (jsOr (provLocContains data "total")
          (jsOr (provLocContains data "budget") (some "budget/total section")))))
    else if fieldName = "total_contracted_impressions" then
      jsOr (provLoc data "total_contracted_impressions") (jsOr (provLoc data "impressions")
        (jsOr (provLoc data "total_impressions") (jsOr (provLocContains data "impressions")
          (jsOr (provLocContains data "total") (some "impressions/total section")))))
    else if fieldName = "po_number" then
      jsOr (provLoc data "po_number") (jsOr (provLoc data "order_number")
        (jsOr (provLocContains data "po") (jsOr (provLocContains data "order")
          (some "order/po section"))))
    else if fieldName = "frequency_cap" then
      jsOr (provLoc data "frequency_cap") (jsOr (provLoc data "frequency")
        (jsOr (provLocContains data "frequency") (jsOr (provLocContains data "cap")
          (some "frequency/targeting section"))))
    else if fieldName = "currency" then
      jsOr (provLoc data "currency") (jsOr (provLoc data "total_campaign_spend")
        (jsOr (provLocContains data "currency") (some "derived from spend field")))
    else if fieldName = "start_date" then
      jsOr (provLoc data "campaign_total_flight.start") (jsOr (provLoc data "start_date")
        (jsOr (provLoc data "start") (jsOr (provLocContains data "start")
          (jsOr (provFieldPred data (fun p =>
              jsIncludes p.field "flight" || jsIncludes p.field "period"))
            (some "campaign dates section")))))
    else if fieldName = "end_date" then
      jsOr (provLoc data "campaign_total_flight.end") (jsOr (provLoc data "end_date")
        (jsOr (provLoc data "end") (jsOr (provLocContains data "end")
          (jsOr (provFieldPred data (fun p =>
              jsIncludes p.field "flight" || jsIncludes p.field "period"))
            (some "campaign dates section")))))
    else if fieldName = "period_start" then
      jsOr (provLoc data "period.start") (jsOr (provLoc data "period_start")
        (jsOr (provLoc data "period") (jsOr (provLocContains data "period")
          (some "inferred from flight dates"))))
    else if fieldName = "period_end" then
      jsOr (provLoc data "period.end") (jsOr (provLoc data "period_end")
        (jsOr (provLoc data "period") (jsOr (provLocContains data "period")
          (some "inferred from flight dates"))))
    else if fieldName = "account_executive_name" then
      jsOr (provLoc data "account_executive_name") (jsOr (provLoc data "account_executive")
        (jsOr (provLoc data "ae_name") (jsOr (provLocContains data "account executive")
          (jsOr (provLocContains data "ae") (some "account executive section")))))
    else
      jsOr (provFieldPred data (fun p => jsIncludes (strToLower p.field) (strToLower fieldName)))
        (jsOr (provFieldPred data (fun p => jsIncludes (strToLower fieldName) (strToLower p.field)))
          (some "document content"))

def optStrVal : Option String → JSValue
  | some s => .vStr s
  | none => .vNull

def optNumVal : Option ℚ → JSValue
  | some q => .vNum q
  | none => .vNull

/-- The value of `run.campaign_total_flight?.start`-style optional chains
followed by `||` fallback from a (possibly falsy) leading string. -/
def jsOrChainVal (lead : Option String) (winOpt : Option CampaignWindow)
    (pick : CampaignWindow → Option String) : JSValue :=
  let fallback : JSValue :=
    match winOpt with
    | none => .vUndef
    | some w => optStrVal (pick w)
  match lead with
  | some s => if s ≠ "" then .vStr s else fallback
  | none => fallback

/-- The `getStabilityValues` closure. -/
def getStabilityValues (multiRunData : List IOData) (fieldName : String) : List JSValue :=
  if multiRunData.length = 0 then []
  else
    multiRunData.map (fun run =>
      if fieldName = "advertiser_name" then optStrVal run.advertiser_name
      else if fieldName = "agency_name" then optStrVal run.agency_name
      else if fieldName = "total_campaign_spend" then optNumVal run.total_campaign_spend
      else if fieldName = "total_contracted_impressions" then
        optNumVal run.total_contracted_impressions
      else if fieldName = "po_number" then optStrVal run.po_number
      else if fieldName = "frequency_cap" then .vNum run.frequency_cap
      else if fieldName = "account_executive_name" then
        optStrVal run.account_executive_name
      else if fieldName = "currency" then optStrVal run.currency
      else if fieldName = "start_date" then
        jsOrChainVal run.start run.campaign_total_flight (fun w => w.start)
      else if fieldName = "end_date" then
        jsOrChainVal run.«end» run.campaign_total_flight (fun w => w.«end»)
      else if fieldName = "period_start" then
        (match run.period with
         | none => .vUndef
         | some p => optStrVal p.start)
      else if fieldName = "period_end" then
        (match run.period with
         | none => .vUndef
         | some p => optStrVal p.«end»)
      else .vNull)

/-- JS truthiness of a nullable number. -/
def numTruthy : Option ℚ → Bool
  | some q => q != 0
  | none => false

/-- JS truthiness of a nullable string. -/
def strTruthy : Option String → Bool
  | some s => s != ""
  | none => false

/-- The identity-guard post-processing loop applied to one `FieldConfidence`
(the code mutates in place; both `if`s of the loop body are applied in
order). -/
def guardAdjust (mult : ℚ) (fc : FieldConfidence) : FieldConfidence :=
  let comps := fc.components.map (fun comp =>
    if jsIncludes comp.name "cross_field" then
      { comp with score := comp.score * mult,
                  notes := comp.notes ++ " (identity guard applied)" }
    else comp)
  { fc with components := comps,
            confidence_score :=
              (comps.foldl (fun s c => s + c.score) 0) / (comps.length : ℚ) }

def applyIdentityGuard (advertiserMult agencyMult : ℚ) (fc : FieldConfidence) :
    FieldConfidence :=
  let fc1 := if fc.field == "advertiser_name" && advertiserMult != 1.0 then
    guardAdjust advertiserMult fc else fc
  if fc1.field == "agency_name" && agencyMult != 1.0 then
    guardAdjust agencyMult fc1 else fc1

/-- The score-0 component pushed for a missing account executive name. -/
def missingAeComponent : ConfidenceComponent :=
  ⟨"account_executive_missing", 0.0,
   "Account Executive Name is null or empty - REQUIRED FIELD"⟩

/-- The "Account Executive Name" entry of `calculateConfidence`: normal
validation when the name is JS-truthy and has a non-whitespace character,
otherwise a single score-0 `account_executive_missing` component. -/
def aeFieldConfidence (data : IOData) (multiRunData : List IOData) : FieldConfidence :=
  match data.account_executive_name with
  | some s =>
    if s ≠ "" ∧ s.trim ≠ "" then
      aggregateConfidence "account_executive_name"
        [validateSpanQuality "account_executive_name"
           (getLocation data "account_executive_name"),
         validateStability (getStabilityValues multiRunData "account_executive_name") .string]
        (getStabilityValues multiRunData "account_executive_name")
        (getLLMConfidence data "account_executive_name")
    else
      aggregateConfidence "account_executive_name" [missingAeComponent]
        (getStabilityValues multiRunData "account_executive_name")
        (getLLMConfidence data "account_executive_name")
  | none =>
    aggregateConfidence "account_executive_name" [missingAeComponent]
      (getStabilityValues multiRunData "account_executive_name")
      (getLLMConfidence data "account_executive_name")

/-- The field-confidence list of `calculateConfidence` in push order, before
the identity-guard post-processing. -/
def baseFieldConfidences (data : IOData) (multiRunData : List IOData)
    (cpm : Option ℚ) : List FieldConfidence :=
  let effectiveCpm : Option ℚ :=
    if numTruthy cpm then cpm else calculateAverageCpm data.flights
  let advertiserValues := getStabilityValues multiRunData "advertiser_name"
  let advFC := aggregateConfidence "advertiser_name"
    [validateSpanQuality "advertiser_name" (getLocation data "advertiser_name"),
     validateStability advertiserValues .string]
    advertiserValues (getLLMConfidence data "advertiser_name")
  let agencyValues := getStabilityValues multiRunData "agency_name"
  let agencyFC := aggregateConfidence "agency_name"
    [validateSpanQuality "agency_name" (getLocation data "agency_name"),
     validateStability agencyValues .string]
    agencyValues (getLLMConfidence data "agency_name")
  let budgetValues := getStabilityValues multiRunData "total_campaign_spend"
  let budgetComponents :=
    [validateBudgetFormat data.total_campaign_spend,
     validateSpanQuality "total_campaign_spend" (getLocation data "total_campaign_spend"),
     validateStability budgetValues .other] ++
    (if numTruthy cpm && numTruthy data.total_contracted_impressions then
      [validateNumericTriangle data.total_campaign_spend cpm
        data.total_contracted_impressions]
     else []) ++
    (if 0 < data.flights.length then
      [validateTotalsMatchSums data.flights data.total_campaign_spend
        data.total_contracted_impressions]
     else [])
  let budgetFC := aggregateConfidence "total_campaign_spend" budgetComponents
    budgetValues (getLLMConfidence data "total_campaign_spend")
  let impressionsValues := getStabilityValues multiRunData "total_contracted_impressions"
  let impressionsComponents :=
    [validateImpressionsFormat data.total_contracted_impressions,
     validateSpanQuality "total_contracted_impressions"
       (getLocation data "total_contracted_impressions"),
     validateStability impressionsValues .number,
     validateTotalImpressionsMatchFlights data.total_contracted_impressions data.flights] ++
    (if numTruthy effectiveCpm && numTruthy data.total_campaign_spend then
      [validateNumericTriangle data.total_campaign_spend effectiveCpm
        data.total_contracted_impressions]
     else [])
  let impressionsFC := aggregateConfidence "total_contracted_impressions"
    impressionsComponents impressionsValues
    (getLLMConfidence data "total_contracted_impressions")
  let poValues := getStabilityValues multiRunData "po_number"
  let poFC := aggregateConfidence "po_number"
    [validateSpanQuality "po_number" (getLocation data "po_number"),
     validateStability poValues .string]
    poValues (getLLMConfidence data "po_number")
  let frequencyValues := getStabilityValues multiRunData "frequency_cap"
  let freqFC := aggregateConfidence "frequency_cap"
    [validateSpanQuality "frequency_cap" (getLocation data "frequency_cap"),
     validateStability frequencyValues .number]
    frequencyValues (getLLMConfidence data "frequency_cap")
  let campaignStart : Option String :=
    jsOr data.start (match data.campaign_total_flight with
      | some w => jsOr w.start none
      | none => none)
  let campaignEnd : Option String :=
    jsOr data.«end» (match data.campaign_total_flight with
      | some w => jsOr w.«end» none
      | none => none)
  let flightFCs :=
    if 0 < data.flights.length then
      data.flights.enum.map (fun iflight =>
        validateIndividualFlight { iflight.2 with index := some ((iflight.1 : ℤ) + 1) }
          campaignStart campaignEnd)
    else []
  let currencyFCs :=
    if strTruthy data.currency then
      let currencyValues := getStabilityValues multiRunData "currency"
      [aggregateConfidence "currency"
        [validateSpanQuality "currency" (getLocation data "currency"),
         validateStability currencyValues .string]
        currencyValues (getLLMConfidence data "currency")]
    else []
  let startFCs :=
    if strTruthy data.start ||
       (match data.campaign_total_flight with
        | some w => strTruthy w.start
        | none => false) then
      let startDateValues := getStabilityValues multiRunData "start_date"
      [aggregateConfidence "start_date"
        [validateSpanQuality "start_date" (getLocation data "start_date"),
         validateStability startDateValues .string]
        startDateValues (getLLMConfidence data "start_date")]
    else []
  let endFCs :=
    if strTruthy data.«end» ||
       (match data.campaign_total_flight with
        | some w => strTruthy w.«end»
        | none => false) then
      let endDateValues := getStabilityValues multiRunData "end_date"
      [aggregateConfidence "end_date"
        [validateSpanQuality "end_date" (getLocation data "end_date"),
         validateStability endDateValues .string]
        endDateValues (getLLMConfidence data "end_date")]
    else []
  let periodStartFCs :=
    if (match data.period with
        | some p => strTruthy p.start
        | none => false) then
      let periodStartValues := getStabilityValues multiRunData "period_start"
      [aggregateConfidence "period_start"
        [validateSpanQuality "period_start" (getLocation data "period_start"),
         validateStability periodStartValues .string]
        periodStartValues (getLLMConfidence data "period_start")]
    else []
  let periodEndFCs :=
    if (match data.period with
        | some p => strTruthy p.«end»
        | none => false) then
      let periodEndValues := getStabilityValues multiRunData "period_end"
      [aggregateConfidence "period_end"
        [validateSpanQuality "period_end" (getLocation data "period_end"),
         validateStability periodEndValues .string]
        periodEndValues (getLLMConfidence data "period_end")]
    else []
  [advFC, agencyFC, budgetFC, impressionsFC, poFC, freqFC] ++ flightFCs ++
    [aeFieldConfidence data multiRunData] ++ currencyFCs ++ startFCs ++ endFCs ++
    periodStartFCs ++ periodEndFCs

/-- The guard multipliers as computed at the `calculateConfidence` call site
(`supplier_name` is not in the schema, so `null` is passed twice). -/
def identityMultipliersOf (data : IOData) : ℚ × ℚ × ℚ :=
  validateIdentityGuard data.advertiser_name data.agency_name none
    (getLocation data "advertiser_name") (getLocation data "agency_name") none

/-- `calculateConfidence`, the main entry point. -/
def calculateConfidence (data : IOData) (multiRunData : List IOData)
    (cpm : Option ℚ) : ConfidenceReport :=
  let adjusted := (baseFieldConfidences data multiRunData cpm).map
    (applyIdentityGuard (identityMultipliersOf data).1 (identityMultipliersOf data).2.1)
  let overallScore :=
    (adjusted.foldl (fun s fc => s + fc.confidence_score) 0) / (adjusted.length : ℚ)
  ⟨overallScore, adjusted,
   ⟨(adjusted.filter (fun fc => fc.status == ConfStatus.use)).length,
    (adjusted.filter (fun fc => fc.status == ConfStatus.review)).length,
    (adjusted.filter (fun fc => fc.status == ConfStatus.reject)).length⟩⟩

/-! Component names are fixed across all branches of each flight validator. -/

theorem validateFlightDates_name (f : FlightItem) :
    (validateFlightDates f).name = "flight_dates" := by
  unfold validateFlightDates
  split
  · split <;> rfl
  · rfl

theorem validateFlightCpm_name (f : FlightItem) :
    (validateFlightCpm f).name = "flight_cpm" := by
  unfold validateFlightCpm
  split
  · rfl
  · split
    · rfl
    · split
      · rfl
      · split <;> rfl

theorem validateFlightUnits_name (f : FlightItem) :
    (validateFlightUnits f).name = "flight_units" := by
  unfold validateFlightUnits
  split
  · rfl
  · split
    · rfl
    · split
      · rfl
      · split <;> rfl

theorem validateFlightCost_name (f : FlightItem) :
    (validateFlightCost f).name = "flight_cost" := by
  unfold validateFlightCost
  split
  · rfl
  · split
    · rfl
    · split
      · split <;> rfl
      · split
        · split
          · dsimp only
            split <;> rfl
          · rfl
        · rfl

theorem validateFlightWithinCampaignPeriod_name (f : FlightItem) (cs ce : String) :
    (validateFlightWithinCampaignPeriod f cs ce).name = "flight_within_campaign" := by
  unfold validateFlightWithinCampaignPeriod
  split
  · split
    · split <;> rfl
    · rfl
  · rfl

theorem find?_flightCost (flight : FlightItem) (campaignStart campaignEnd : Option String) :
    (flightComponents flight campaignStart campaignEnd).find?
      (fun c => c.name == "flight_cost") = some (validateFlightCost flight) := by
  show (validateFlightDates flight :: validateFlightCpm flight ::
    validateFlightUnits flight :: validateFlightCost flight :: _).find? _ = _
  rw [List.find?_cons_of_neg _ (by simp [validateFlightDates_name]),
      List.find?_cons_of_neg _ (by simp [validateFlightCpm_name]),
      List.find?_cons_of_neg _ (by simp [validateFlightUnits_name]),
      List.find?_cons_of_pos _ (by simp [validateFlightCost_name])]

theorem find?_flightPeriod (flight : FlightItem) (cs ce : String)
    (hcs : cs ≠ "") (hce : ce ≠ "")
    (hcost : (validateFlightCost flight).score ≠ 0) :
    gateTriggered (flightComponents flight (some cs) (some ce)) "flight_within_campaign" =
      ((validateFlightWithinCampaignPeriod flight cs ce).score == 0) := by
  unfold gateTriggered flightComponents
  dsimp only
  rw [if_pos ⟨hcs, hce⟩]
  rw [show ([validateFlightDates flight, validateFlightCpm flight,
      validateFlightUnits flight, validateFlightCost flight] ++
      [validateFlightWithinCampaignPeriod flight cs ce]) =
    validateFlightDates flight :: validateFlightCpm flight ::
      validateFlightUnits flight :: validateFlightCost flight ::
      [validateFlightWithinCampaignPeriod flight cs ce] from rfl]
  rw [List.find?_cons_of_neg _ (by simp [validateFlightDates_name]),
      List.find?_cons_of_neg _ (by simp [validateFlightCpm_name]),
      List.find?_cons_of_neg _ (by simp [validateFlightUnits_name]),
      List.find?_cons_of_neg _ (by simp [validateFlightCost_name]),
      List.find?_cons_of_pos _ (by simp [validateFlightWithinCampaignPeriod_name])]

/-- **C3**: whenever the cost-consistency component scores exactly 0.0, or
the within-campaign-period component is present (both campaign bounds
JS-truthy) and scores exactly 0.0, `validateIndividualFlight` force-sets the
flight's status to `reject` with `confidence_score` 0, bypassing the
arithmetic mean of its components — whatever the other components score. -/
theorem C3_flight_gates_reject (flight : FlightItem)
    (campaignStart campaignEnd : Option String)
    (h : (validateFlightCost flight).score = 0 ∨
         (∃ cs ce, campaignStart = some cs ∧ campaignEnd = some ce ∧
           cs ≠ "" ∧ ce ≠ "" ∧
           (validateFlightWithinCampaignPeriod flight cs ce).score = 0)) :
    (validateIndividualFlight flight campaignStart campaignEnd).status =
      ConfStatus.reject ∧
    (validateIndividualFlight flight campaignStart campaignEnd).confidence_score = 0 := by
  unfold validateIndividualFlight
  by_cases hcost : (validateFlightCost flight).score = 0
  · rw [if_pos (by
      unfold gateTriggered
      rw [find?_flightCost]
      exact beq_iff_eq.mpr hcost)]
    exact ⟨rfl, by norm_num⟩
  · rcases h with h | ⟨cs, ce, hcs, hce, hcsne, hcene, hscore⟩
    · exact absurd h hcost
    · subst hcs
      subst hce
      rw [if_neg (by
        unfold gateTriggered
        rw [find?_flightCost]
        simpa using hcost)]
      rw [if_pos (by
        rw [find?_flightPeriod flight cs ce hcsne hcene hcost]
        exact beq_iff_eq.mpr hscore)]
      exact ⟨rfl, by norm_num⟩

/-- Scenario C's failing flight: CPM 10.00, units 100 000, cost 1001.00 —
the implied cost is 1000.00, a 0.1% deviation, so the cost gate fires. -/
def exFlightProv : FlightProvenance := ⟨"", "", 0, 0, ""⟩

def exFlightC : FlightItem :=
  ⟨some 1, some "P1", some "F", some "2025-01-01", some "2025-01-31",
   some 100000, none, some 10, none, some 1001, none, exFlightProv, none, none⟩

/-- **C3 (witness)**: scenario C's flight is force-rejected with score 0. -/
theorem C3_witness :
    (validateIndividualFlight exFlightC none none).status = ConfStatus.reject ∧
    (validateIndividualFlight exFlightC none none).confidence_score = 0 :=
  C3_flight_gates_reject exFlightC none none
    (Or.inl (by norm_num [validateFlightCost, exFlightC, parseNumeric]))

theorem foldl_score_sum (l : List ConfidenceComponent) (a : ℚ) :
    l.foldl (fun s c => s + c.score) a = a + (l.map (fun c => c.score)).sum := by
  induction l generalizing a with
  | nil => simp
  | cons x xs ih =>
    simp only [List.foldl_cons, List.map_cons, List.sum_cons, ih]
    ring

theorem meanScore_eq (l : List ConfidenceComponent) :
    meanScore l = ((l.map (fun c => c.score)).sum) / (l.length : ℚ) := by
  unfold meanScore
  rw [foldl_score_sum]
  ring_nf

/-- **C7**: for every field, `aggregateConfidence` scores the field by the
arithmetic mean of its components; when upstream `find_confidence` /
`value_confidence` are available the final score is
`0.6·validation + 0.4·((find+value)/200)`, else the validation mean alone; a
`confidence_merge` component is appended carrying the final score; and the
status is `use` at ≥ 0.80, `review` at ≥ 0.55, `reject` below. -/
theorem C7_aggregateConfidence_spec (field : String)
    (components : List ConfidenceComponent) (mrv : List JSValue)
    (llm : Option (ℚ × ℚ)) (hne : components ≠ []) :
    (aggregateConfidence field components mrv llm).confidence_score =
      (match llm with
       | some lc => 0.6 * (((components.map (fun c => c.score)).sum) /
           (components.length : ℚ)) + 0.4 * ((lc.1 + lc.2) / 200)
       | none => ((components.map (fun c => c.score)).sum) / (components.length : ℚ)) ∧
    (∃ mc, (aggregateConfidence field components mrv llm).components =
        components ++ [mc] ∧ mc.name = "confidence_merge" ∧
        mc.score = (aggregateConfidence field components mrv llm).confidence_score) ∧
    (aggregateConfidence field components mrv llm).status =
      (if (aggregateConfidence field components mrv llm).confidence_score ≥ 0.80 then
        ConfStatus.use
       else if (aggregateConfidence field components mrv llm).confidence_score ≥ 0.55 then
        ConfStatus.review
       else ConfStatus.reject) := by
  constructor
  · cases llm with
    | none =>
      simp only [aggregateConfidence]
      rw [meanScore_eq]
    | some lc =>
      obtain ⟨f, v⟩ := lc
      simp only [aggregateConfidence]
      rw [meanScore_eq]
      ring
  · exact ⟨⟨_, rfl, rfl, rfl⟩, rfl⟩

/-- **C7 (witness)**: one component of score 1.0 with find 80, value 60
blends to 0.6·1.0 + 0.4·0.7 = 0.88. -/
theorem C7_witness :
    (aggregateConfidence "total_campaign_spend" [⟨"budget_format", 1.0, "ok"⟩] []
       (some (80, 60))).confidence_score =
      (match (some ((80 : ℚ), (60 : ℚ)) : Option (ℚ × ℚ)) with
       | some lc => 0.6 * ((([⟨"budget_format", 1.0, "ok"⟩] :
             List ConfidenceComponent).map (fun c => c.score)).sum /
           (([⟨"budget_format", 1.0, "ok"⟩] : List ConfidenceComponent).length : ℚ)) +
           0.4 * ((lc.1 + lc.2) / 200)
       | none => (([⟨"budget_format", 1.0, "ok"⟩] :
             List ConfidenceComponent).map (fun c => c.score)).sum /
           (([⟨"budget_format", 1.0, "ok"⟩] : List ConfidenceComponent).length : ℚ)) :=
  (C7_aggregateConfidence_spec "total_campaign_spend" [⟨"budget_format", 1.0, "ok"⟩]
    [] (some (80, 60)) (by simp)).1

theorem statusOf_reject {q : ℚ} (h : q < 0.55) : statusOf q = ConfStatus.reject := by
  unfold statusOf
  rw [if_neg (by norm_num at h ⊢; linarith), if_neg (by norm_num at h ⊢; linarith)]

theorem meanScore_missingAe : meanScore [missingAeComponent] = 0 := by
  norm_num [meanScore, missingAeComponent]

theorem aggregate_missing_facts (mrv : List JSValue) (llm : Option (ℚ × ℚ))
    (hb : ∀ f v, llm = some (f, v) → f ≤ 100 ∧ v ≤ 100) :
    (aggregateConfidence "account_executive_name" [missingAeComponent] mrv
       llm).confidence_score ≤ 0.4 ∧
    (aggregateConfidence "account_executive_name" [missingAeComponent] mrv
       llm).status = ConfStatus.reject ∧
    ∃ mc, (aggregateConfidence "account_executive_name" [missingAeComponent] mrv
       llm).components = missingAeComponent :: [mc] := by
  have hscore : (aggregateConfidence "account_executive_name" [missingAeComponent] mrv
      llm).confidence_score ≤ 0.4 := by
    cases llm with
    | none =>
      simp only [aggregateConfidence, meanScore_missingAe]
      norm_num
    | some lc =>
      obtain ⟨f, v⟩ := lc
      obtain ⟨hf, hv⟩ := hb f v rfl
      simp only [aggregateConfidence, meanScore_missingAe]
      have h1 : (0 : ℚ) * 0.6 + (f + v) / 200 * 0.4 ≤ 0.4 := by
        norm_num
        linarith
      exact h1
  refine ⟨hscore, ?_, ⟨_, rfl⟩⟩
  show statusOf (aggregateConfidence "account_executive_name" [missingAeComponent]
    mrv llm).confidence_score = ConfStatus.reject
  exact statusOf_reject (by norm_num at hscore ⊢; linarith)

theorem applyIdentityGuard_other (m1 m2 : ℚ) (fc : FieldConfidence)
    (h1 : fc.field ≠ "advertiser_name") (h2 : fc.field ≠ "agency_name") :
    applyIdentityGuard m1 m2 fc = fc := by
  unfold applyIdentityGuard
  have hc1 : (fc.field == "advertiser_name" && m1 != 1.0) = false := by
    simp [h1]
  have hc2 : (fc.field == "agency_name" && m2 != 1.0) = false := by
    simp [h2]
  simp only [hc1, hc2, Bool.false_eq_true, if_false]

/-- **C10**: for every document whose `account_executive_name` is null or
whitespace-only, `calculateConfidence` emits an `account_executive_name`
entry whose validation components are exactly the single score-0
`account_executive_missing` component (plus the synthetic merge component),
and whose status is `reject` whatever the upstream confidences are — with
find/value in 0–100 the blended score is at most 0.4, below the 0.55 review
threshold. -/
theorem C10_ae_missing_reject (data : IOData) (multiRunData : List IOData)
    (cpm : Option ℚ)
    (hmiss : ∀ s, data.account_executive_name = some s → s.trim = "")
    (hbound : ∀ p ∈ data.provenance, p.field = "account_executive_name" →
       (∀ f, p.find_confidence = some f → f ≤ 100) ∧
       (∀ v, p.value_confidence = some v → v ≤ 100)) :
    ∃ fc ∈ (calculateConfidence data multiRunData cpm).field_confidences,
      fc.field = "account_executive_name" ∧
      fc.status = ConfStatus.reject ∧
      fc.confidence_score ≤ 0.4 ∧
      ∃ mc, fc.components = missingAeComponent :: [mc] := by
  have hae : aeFieldConfidence data multiRunData =
      aggregateConfidence "account_executive_name" [missingAeComponent]
        (getStabilityValues multiRunData "account_executive_name")
        (getLLMConfidence data "account_executive_name") := by
    unfold aeFieldConfidence
    cases hcase : data.account_executive_name with
    | none => rfl
    | some s =>
      dsimp only
      rw [if_neg]
      intro hcs
      exact hcs.2 (hmiss s hcase)
  have hllm : ∀ f v, getLLMConfidence data "account_executive_name" = some (f, v) →
      f ≤ 100 ∧ v ≤ 100 := by
    intro f v h
    unfold getLLMConfidence at h
    rcases hfind : data.provenance.find? (fun p => p.field == "account_executive_name")
      with _ | p
    · rw [hfind] at h
      exact absurd h (by simp)
    · rw [hfind] at h
      dsimp only at h
      have hmem := List.mem_of_find?_eq_some hfind
      have hfield : p.field = "account_executive_name" := by
        simpa using List.find?_some hfind
      obtain ⟨hf, hv⟩ := hbound p hmem hfield
      rcases hfc : p.find_confidence with _ | f0
      · rw [hfc] at h
        exact absurd h (by simp)
      · rw [hfc] at h
        rcases hvc : p.value_confidence with _ | v0
        · rw [hvc] at h
          exact absurd h (by simp)
        · rw [hvc] at h
          simp only [Option.some.injEq, Prod.mk.injEq] at h
          obtain ⟨h1, h2⟩ := h
          subst h1
          subst h2
          exact ⟨hf _ hfc, hv _ hvc⟩
  obtain ⟨hsc, hst, mc, hcomps⟩ := aggregate_missing_facts
    (getStabilityValues multiRunData "account_executive_name")
    (getLLMConfidence data "account_executive_name") hllm
  have hmemBase : aeFieldConfidence data multiRunData ∈
      baseFieldConfidences data multiRunData cpm := by
    unfold baseFieldConfidences
    simp only [List.mem_append, List.mem_singleton]
    tauto
  have hguard : applyIdentityGuard (identityMultipliersOf data).1
      (identityMultipliersOf data).2.1 (aeFieldConfidence data multiRunData) =
      aeFieldConfidence data multiRunData := by
    apply applyIdentityGuard_other
    · rw [hae]; exact (by decide : "account_executive_name" ≠ "advertiser_name")
    · rw [hae]; exact (by decide : "account_executive_name" ≠ "agency_name")
  refine ⟨aeFieldConfidence data multiRunData, ?_, ?_, ?_, ?_, mc, ?_⟩
  · show aeFieldConfidence data multiRunData ∈
      (baseFieldConfidences data multiRunData cpm).map
        (applyIdentityGuard (identityMultipliersOf data).1 (identityMultipliersOf data).2.1)
    rw [← hguard]
    exact List.mem_map_of_mem _ hmemBase
  · rw [hae]
    rfl
  · rw [hae]; exact hst
  · rw [hae]; exact hsc
  · rw [hae]; exact hcomps

def exAeProv : ProvEntry :=
  ⟨"account_executive_name", "", some "", some 100, some 100, ""⟩

/-- A document with a null account executive but perfect (100/100) upstream
confidence for that field. -/
def exDocAeMissing : IOData :=
  ⟨some "A", none, none, none, none, none, none, none, 2, none, [], [exAeProv],
   none, none⟩

/-- **C10 (witness)**: the missing-AE document yields a rejected
`account_executive_name` entry despite find = value = 100. -/
theorem C10_witness :
    ∃ fc ∈ (calculateConfidence exDocAeMissing [] none).field_confidences,
      fc.field = "account_executive_name" ∧
      fc.status = ConfStatus.reject ∧
      fc.confidence_score ≤ 0.4 ∧
      ∃ mc, fc.components = missingAeComponent :: [mc] :=
  C10_ae_missing_reject exDocAeMissing [] none
    (fun _ h => Option.noConfusion h)
    (by
      intro p hp hfield
      have hpe : p = exAeProv := by
        simpa [exDocAeMissing] using hp
      subst hpe
      constructor
      · intro f h
        rw [show exAeProv.find_confidence = some 100 from rfl] at h
        rw [← Option.some.inj h]
      · intro v h
        rw [show exAeProv.value_confidence = some 100 from rfl] at h
        rw [← Option.some.inj h])


/-! **C9** — the identity guard.  `validateIdentityGuard` computes collision /
location penalties, but `applyIdentityGuard` only rescales components whose
name contains `"cross_field"`, and no validator emits such a component. -/

/-- A document whose advertiser and agency names collide. -/
def exDocCollide : IOData :=
  ⟨some "Acme", some "Acme", none, none, none, none, none, none, 2, none, [], [],
   none, none⟩

/-- The advertiser entry of `exDocCollide`'s report before the guard. -/
def exAdvFCCollide : FieldConfidence :=
  aggregateConfidence "advertiser_name"
    [validateSpanQuality "advertiser_name" (getLocation exDocCollide "advertiser_name"),
     validateStability [] .string]
    [] (getLLMConfidence exDocCollide "advertiser_name")

theorem exDocCollide_advLoc : getLocation exDocCollide "advertiser_name" =
    some "advertiser/brand section" := by decide

theorem exDocCollide_agcLoc : getLocation exDocCollide "agency_name" =
    some "agency/from section" := by decide

theorem exDocCollide_multipliers : identityMultipliersOf exDocCollide = (0.4, 0.4, 1.0) := by
  have e1 : jsIncludes (strToLower "advertiser/brand section") "order total" = false := by
    decide
  have e2 : jsIncludes (strToLower "advertiser/brand section") "supplier" = false := by
    decide
  have e3 : jsIncludes (strToLower "advertiser/brand section") "traffic" = false := by
    decide
  have e4 : jsIncludes (strToLower "agency/from section") "order total" = false := by
    decide
  have e5 : jsIncludes (strToLower "agency/from section") "supplier" = false := by
    decide
  have e6 : jsIncludes (strToLower "agency/from section") "traffic" = false := by
    decide
  unfold identityMultipliersOf
  rw [exDocCollide_advLoc, exDocCollide_agcLoc]
  unfold validateIdentityGuard
  norm_num [exDocCollide, e1, e2, e3, e4, e5, e6]

theorem exDocCollide_head : (calculateConfidence exDocCollide [] none).field_confidences.get? 0 =
    some (applyIdentityGuard (identityMultipliersOf exDocCollide).1
      (identityMultipliersOf exDocCollide).2.1 exAdvFCCollide) := rfl

/-- `guardAdjust` is the identity on an entry without `cross_field`
components whose score is already the plain component mean. -/
theorem guardAdjust_id (m : ℚ) (fc : FieldConfidence)
    (hname : ∀ c ∈ fc.components, jsIncludes c.name "cross_field" = false)
    (hscore : fc.confidence_score = meanScore fc.components) :
    guardAdjust m fc = fc := by
  have hmap : fc.components.map (fun comp =>
      if jsIncludes comp.name "cross_field" then
        { comp with score := comp.score * m,
                    notes := comp.notes ++ " (identity guard applied)" }
      else comp) = fc.components := by
    have h : ∀ c ∈ fc.components, (if jsIncludes c.name "cross_field" then
        ({ c with score := c.score * m,
                  notes := c.notes ++ " (identity guard applied)" } : ConfidenceComponent)
      else c) = id c := by
      intro c hc
      rw [hname c hc]
      rfl
    rw [List.map_congr_left h, List.map_id]
  have hsc : (fc.components.foldl (fun s c => s + c.score) 0) /
      (fc.components.length : ℚ) = fc.confidence_score := by
    rw [hscore]; rfl
  unfold guardAdjust
  dsimp only
  rw [hmap, hsc]

theorem applyIdentityGuard_id (m1 m2 : ℚ) (fc : FieldConfidence)
    (hname : ∀ c ∈ fc.components, jsIncludes c.name "cross_field" = false)
    (hscore : fc.confidence_score = meanScore fc.components) :
    applyIdentityGuard m1 m2 fc = fc := by
  unfold applyIdentityGuard
  dsimp only
  have h1 : (if (fc.field == "advertiser_name" && m1 != 1.0) = true then
      guardAdjust m1 fc else fc) = fc := by
    split
    · exact guardAdjust_id m1 fc hname hscore
    · rfl
  rw [h1]
  split
  · exact guardAdjust_id m2 fc hname hscore
  · rfl

/-- Appending a synthetic component carrying the mean of a nonempty list
leaves the mean unchanged. -/
theorem meanScore_append_mean (l : List ConfidenceComponent) (nm nt : String)
    (h : l ≠ []) : meanScore (l ++ [⟨nm, meanScore l, nt⟩]) = meanScore l := by
  have hn : (0 : ℚ) < l.length := by
    have h0 : 0 < l.length := List.length_pos.mpr h
    exact_mod_cast h0
  unfold meanScore
  rw [List.foldl_append, List.length_append]
  dsimp only [List.foldl, List.length]
  rw [foldl_score_sum]
  push_cast
  field_simp
  ring

theorem exAdvFCCollide_names : ∀ c ∈ exAdvFCCollide.components,
    jsIncludes c.name "cross_field" = false := by decide

theorem exAdvFCCollide_score_mean :
    exAdvFCCollide.confidence_score = meanScore exAdvFCCollide.components := by
  have hllm : getLLMConfidence exDocCollide "advertiser_name" = none := rfl
  simp only [exAdvFCCollide, aggregateConfidence, hllm]
  exact (meanScore_append_mean _ _ _ (by simp)).symm

/-- **C9**: on a document whose advertiser and agency names collide
("Acme" = "Acme"), the guard multipliers computed at the
`calculateConfidence` call site are (0.4, 0.4, 1.0) — a penalty is intended —
and the advertiser entry of the report is
`applyIdentityGuard 0.4 0.4 exAdvFCCollide`; yet that application changes
nothing: `applyIdentityGuard` only rescales components whose name contains
"cross_field", no validator ever emits such a component, so the collision
penalty never lowers any field's confidence score. -/
theorem C9_identity_guard_dead :
    identityMultipliersOf exDocCollide = (0.4, 0.4, 1.0) ∧
    (calculateConfidence exDocCollide [] none).field_confidences.get? 0 =
      some (applyIdentityGuard (identityMultipliersOf exDocCollide).1
        (identityMultipliersOf exDocCollide).2.1 exAdvFCCollide) ∧
    applyIdentityGuard (identityMultipliersOf exDocCollide).1
      (identityMultipliersOf exDocCollide).2.1 exAdvFCCollide = exAdvFCCollide :=
  ⟨exDocCollide_multipliers, exDocCollide_head,
   applyIdentityGuard_id _ _ _ exAdvFCCollide_names exAdvFCCollide_score_mean⟩

/-! **C8** — the stability score table. -/

/-- The run-count score table exactly as the claim states it (spec-side
definition, to be compared with `validateStability` from the source). -/
def stabilityClaimScore (values : List JSValue) (fieldType : FieldType) : ℚ :=
  match values with
  | [] => 0.7
  | [_] => 0.8
  | [v0, v1] =>
    let similarity : ℚ :=
      match fieldType, v0, v1 with
      | .string, .vStr a, .vStr b => calculateStringSimilarity a b
      | _, _, _ => if v0 = v1 then 1 else 0
    if similarity ≥ 0.9 then 0.9 else if similarity ≥ 0.7 then 0.7 else 0.6
  | [v0, v1, v2] =>
    match fieldType, v0, v1, v2 with
    | .string, .vStr a, .vStr b, .vStr c =>
      let sim12 := calculateStringSimilarity a b
      let sim13 := calculateStringSimilarity a c
      let sim23 := calculateStringSimilarity b c
      let avgSimilarity := (sim12 + sim13 + sim23) / 3
      if avgSimilarity ≥ 0.95 then 1.0 else if avgSimilarity ≥ 0.85 then 0.9
      else if avgSimilarity ≥ 0.7 then 0.7 else 0.4
    | _, _, _, _ =>
      match ([v0, v1, v2].map jsonStringify).dedup.length with
      | 1 => 1.0
      | 2 => 0.7
      | 3 => 0.4
      | _ => 0.4
  | _ => 0.7

set_option maxHeartbeats 1000000 in
/-- **C8**: for every list of run values and type hint, the stability
analyzer's score is exactly the run-count table of the claim: 0 values → 0.7;
1 → 0.8; 2 → 0.9/0.7/0.6 by similarity thresholds 0.9 and 0.7 (string
similarity for string hint on two strings, exact equality otherwise);
3 all-string values under the string hint → the average of the 3 pairwise
similarities mapped through ≥0.95→1.0, ≥0.85→0.9, ≥0.70→0.7, else 0.4;
3 other values → 1.0/0.7/0.4 by the number of distinct serialized values;
any other run count → 0.7. -/
theorem C8_stability_score_table (values : List JSValue) (t : FieldType) :
    (validateStability values t).score = stabilityClaimScore values t := by
  unfold validateStability stabilityClaimScore
  cases values with
  | nil => rfl
  | cons v0 r0 =>
    cases r0 with
    | nil => rfl
    | cons v1 r1 =>
      cases r1 with
      | nil => rfl
      | cons v2 r2 =>
        cases r2 with
        | cons v3 r3 => rfl
        | nil =>
          cases t <;> cases v0 <;> cases v1 <;> cases v2 <;>
            first
            | (dsimp only; split_ifs <;> rfl)
            | (dsimp only; split <;> rfl)

/-! **C4** — the totals-match-sums validator. -/

theorem str_append_ne_empty (s t : String) (h : s ≠ "") : s ++ t ≠ "" := by
  intro he
  apply h
  have hd : s.data ++ t.data = [] := congrArg String.data he
  rcases List.append_eq_nil.mp hd with ⟨h1, _⟩
  exact congrArg String.mk h1

theorem intercalate_pair (a b : String) :
    String.intercalate "; " [a, b] = a ++ "; " ++ b := rfl

/-- One flight with cost 100 and 1000 units. -/
def exTotalsFlight : FlightItem :=
  ⟨none, none, none, none, none, some 1000, none, none, none, some 100, none,
   exFlightProv, none, none⟩

theorem str_append_assoc (a b c : String) : (a ++ b) ++ c = a ++ (b ++ c) := by
  apply congrArg String.mk
  show (a.data ++ b.data) ++ c.data = a.data ++ (b.data ++ c.data)
  exact List.append_assoc _ _ _

theorem totals_notes_join (a b : String) (ha : a ≠ "") (hb : b ≠ "") :
    (if String.intercalate "; " ([a, b].filter (fun n => n ≠ "")) = "" then
       "Unable to validate totals - missing declared totals"
     else String.intercalate "; " ([a, b].filter (fun n => n ≠ ""))) = a ++ "; " ++ b := by
  have hfa : ([a, b].filter (fun n => n ≠ "")) = [a, b] := by
    rw [List.filter_cons, if_pos (by simpa using ha), List.filter_cons,
        if_pos (by simpa using hb), List.filter_nil]
  rw [hfa, intercalate_pair, if_neg (str_append_ne_empty _ _ (str_append_ne_empty _ _ ha))]

/-- **C4 (amended)**: with both totals declared, the totals-match-sums score
is the average of two independent sub-scores, not a single zero-tolerance
gate: it is 1.0 iff the cost sum matches within one cent AND the unit sum
matches exactly; a delta in only one of the two yields 0.5 (not the claimed
0.0); only a delta in both yields 0.0; any delta keeps the score ≤ 0.5 and
the note states the numeric delta of the mismatching side. -/
theorem C4_amended_totals_match_sums (flights : List FlightItem) (tb ti : ℚ) :
    ((validateTotalsMatchSums flights (some tb) (some ti)).score = 1 ↔
      |flights.foldl (fun s f => s + (parseNumeric f.cost).getD 0) 0 - tb| < 0.01 ∧
      |flights.foldl (fun s f => s + (parseNumeric f.units).getD 0) 0 - ti| = 0) ∧
    (¬ |flights.foldl (fun s f => s + (parseNumeric f.cost).getD 0) 0 - tb| < 0.01 →
     ¬ |flights.foldl (fun s f => s + (parseNumeric f.units).getD 0) 0 - ti| = 0 →
      (validateTotalsMatchSums flights (some tb) (some ti)).score = 0) ∧
    ((¬ |flights.foldl (fun s f => s + (parseNumeric f.cost).getD 0) 0 - tb| < 0.01 ∨
      ¬ |flights.foldl (fun s f => s + (parseNumeric f.units).getD 0) 0 - ti| = 0) →
      (validateTotalsMatchSums flights (some tb) (some ti)).score ≤ 0.5) ∧
    (¬ |flights.foldl (fun s f => s + (parseNumeric f.cost).getD 0) 0 - tb| < 0.01 →
      ∃ rest, (validateTotalsMatchSums flights (some tb) (some ti)).notes =
        ("Budget PARSING ERROR: Sum=" ++
          jsLocaleString (flights.foldl (fun s f => s + (parseNumeric f.cost).getD 0) 0) ++
          ", Total=" ++ jsLocaleString tb ++ ", Diff=" ++
          jsLocaleString |flights.foldl (fun s f => s + (parseNumeric f.cost).getD 0) 0 - tb| ++
          " (" ++ toFixed2
            (|flights.foldl (fun s f => s + (parseNumeric f.cost).getD 0) 0 - tb| / tb * 100) ++
          "%)") ++ rest) ∧
    (|flights.foldl (fun s f => s + (parseNumeric f.cost).getD 0) 0 - tb| < 0.01 →
     ¬ |flights.foldl (fun s f => s + (parseNumeric f.units).getD 0) 0 - ti| = 0 →
      ∃ pre, (validateTotalsMatchSums flights (some tb) (some ti)).notes =
        pre ++ ("Impressions PARSING ERROR: Sum=" ++
          jsLocaleString (flights.foldl (fun s f => s + (parseNumeric f.units).getD 0) 0) ++
          ", Total=" ++ jsLocaleString ti ++ ", Diff=" ++
          jsLocaleString |flights.foldl (fun s f => s + (parseNumeric f.units).getD 0) 0 - ti| ++
          " (" ++ toFixed1
            (|flights.foldl (fun s f => s + (parseNumeric f.units).getD 0) 0 - ti| / ti * 100) ++
          "%)")) := by
  unfold validateTotalsMatchSums
  dsimp only [parseNumeric]
  by_cases hb : |List.foldl (fun s f => s + f.cost.getD 0) 0 flights - tb| < 0.01
  · by_cases hi : |List.foldl (fun s f => s + f.units.getD 0) 0 flights - ti| = 0
    · simp only [if_pos hb, if_pos hi]
      refine ⟨⟨fun _ => ⟨hb, hi⟩, fun _ => by norm_num⟩, ?_, ?_, ?_, ?_⟩
      · intro h _; exact absurd hb h
      · rintro (h | h)
        · exact absurd hb h
        · exact absurd hi h
      · intro h; exact absurd hb h
      · intro _ h; exact absurd hi h
    · simp only [if_pos hb, if_neg hi]
      have hi2 : ("Impressions PARSING ERROR: Sum=" ++
          jsLocaleString (List.foldl (fun s f => s + f.units.getD 0) 0 flights) ++
          ", Total=" ++ jsLocaleString ti ++ ", Diff=" ++
          jsLocaleString |List.foldl (fun s f => s + f.units.getD 0) 0 flights - ti| ++
          " (" ++ toFixed1
            (|List.foldl (fun s f => s + f.units.getD 0) 0 flights - ti| / ti * 100) ++
          "%)") ≠ "" := by
        repeat' apply str_append_ne_empty
        decide
      refine ⟨⟨fun h => by norm_num at h, fun h => absurd h.2 hi⟩, ?_, ?_, ?_, ?_⟩
      · intro h _; exact absurd hb h
      · intro _; norm_num
      · intro h; exact absurd hb h
      · intro _ _
        exact ⟨"Budget: Perfect match" ++ "; ",
          by rw [totals_notes_join _ _ (by decide) hi2]⟩
  · by_cases hi : |List.foldl (fun s f => s + f.units.getD 0) 0 flights - ti| = 0
    · simp only [if_neg hb, if_pos hi]
      have hb2 : ("Budget PARSING ERROR: Sum=" ++
          jsLocaleString (List.foldl (fun s f => s + f.cost.getD 0) 0 flights) ++
          ", Total=" ++ jsLocaleString tb ++ ", Diff=" ++
          jsLocaleString |List.foldl (fun s f => s + f.cost.getD 0) 0 flights - tb| ++
          " (" ++ toFixed2
            (|List.foldl (fun s f => s + f.cost.getD 0) 0 flights - tb| / tb * 100) ++
          "%)") ≠ "" := by
        repeat' apply str_append_ne_empty
        decide
      refine ⟨⟨fun h => by norm_num at h, fun h => absurd h.1 hb⟩, ?_, ?_, ?_, ?_⟩
      · intro _ h; exact absurd hi h
      · intro _; norm_num
      · intro _
        exact ⟨"; " ++ "Impressions: Perfect match",
          by rw [totals_notes_join _ _ hb2 (by decide), str_append_assoc]⟩
      · intro h; exact absurd h hb
    · simp only [if_neg hb, if_neg hi]
      have hb2 : ("Budget PARSING ERROR: Sum=" ++
          jsLocaleString (List.foldl (fun s f => s + f.cost.getD 0) 0 flights) ++
          ", Total=" ++ jsLocaleString tb ++ ", Diff=" ++
          jsLocaleString |List.foldl (fun s f => s + f.cost.getD 0) 0 flights - tb| ++
          " (" ++ toFixed2
            (|List.foldl (fun s f => s + f.cost.getD 0) 0 flights - tb| / tb * 100) ++
          "%)") ≠ "" := by
        repeat' apply str_append_ne_empty
        decide
      have hi2 : ("Impressions PARSING ERROR: Sum=" ++
          jsLocaleString (List.foldl (fun s f => s + f.units.getD 0) 0 flights) ++
          ", Total=" ++ jsLocaleString ti ++ ", Diff=" ++
          jsLocaleString |List.foldl (fun s f => s + f.units.getD 0) 0 flights - ti| ++
          " (" ++ toFixed1
            (|List.foldl (fun s f => s + f.units.getD 0) 0 flights - ti| / ti * 100) ++
          "%)") ≠ "" := by
        repeat' apply str_append_ne_empty
        decide
      refine ⟨⟨fun h => by norm_num at h, fun h => absurd h.1 hb⟩, ?_, ?_, ?_, ?_⟩
      · intro _ _; norm_num
      · intro _; norm_num
      · intro _
        exact ⟨"; " ++ ("Impressions PARSING ERROR: Sum=" ++
          jsLocaleString (List.foldl (fun s f => s + f.units.getD 0) 0 flights) ++
          ", Total=" ++ jsLocaleString ti ++ ", Diff=" ++
          jsLocaleString |List.foldl (fun s f => s + f.units.getD 0) 0 flights - ti| ++
          " (" ++ toFixed1
            (|List.foldl (fun s f => s + f.units.getD 0) 0 flights - ti| / ti * 100) ++
          "%)"), by rw [totals_notes_join _ _ hb2 hi2, str_append_assoc]⟩
      · intro h; exact absurd h hb

/-- **C4 (counterexample)**: one flight with cost 100 and 1000 units against
declared budget 90 (non-zero delta 10) and declared impressions 1000: the
claim demands score 0.0, the code returns 0.5. -/
theorem C4_counterexample :
    |[exTotalsFlight].foldl (fun s f => s + (parseNumeric f.cost).getD 0) 0 - 90| ≠ 0 ∧
    (validateTotalsMatchSums [exTotalsFlight] (some 90) (some 1000)).score = 0.5 := by
  constructor
  · norm_num [exTotalsFlight, parseNumeric]
  · norm_num [validateTotalsMatchSums, exTotalsFlight, parseNumeric]

/-- **C4 (witness)**: the amended theorem applied to the counterexample
input: the budget delta is not below one cent and the score is ≤ 0.5. -/
theorem C4_witness :
    ¬ |[exTotalsFlight].foldl (fun s f => s + (parseNumeric f.cost).getD 0) 0 - 90| < 0.01 ∧
    (validateTotalsMatchSums [exTotalsFlight] (some 90) (some 1000)).score ≤ 0.5 :=
  have h : ¬ |[exTotalsFlight].foldl (fun s f => s + (parseNumeric f.cost).getD 0) 0
      - 90| < 0.01 := by norm_num [exTotalsFlight, parseNumeric]
  ⟨h, (C4_amended_totals_match_sums [exTotalsFlight] 90 1000).2.2.1 (Or.inl h)⟩
